import Mathlib

/-!
# UsedCarsModel: the browser form of `main.js`

A shallow embedding of `src/main.js`: the model loader `initModel`, the submit
handler `form.onsubmit`, and the feature preparation it performs (frequency
lookup, odometer clamp, car age, fixed ordering, standard scaling).

Numbers.  A JavaScript number is a `JSNum`: a rational, `NaN`, `Infinity` or
`-Infinity`.  The exact result of every parse and of every arithmetic
operation goes through a rounding `ℚ → JSNum`, which the definitions take as
an argument.  Two roundings are given: `exactRational`, under which arithmetic is
exact rational arithmetic, and `binary64`, which has the range of the doubles
of the host (overflow to the infinities, underflow to zero) and keeps the
results in between exact, so the loss of precision of a double and the sign
of zero are not part of it.

Values.  The first entry of the feature vector comes from a property read of
the object `FREQ_MAP`, which can find a number, nothing (`undefined`), or a
member of `Object.prototype`; a `JSVal` is one of the three.

Strings.  `String.prototype.toLowerCase` is an argument of the definitions
(`lower`); `asciiLower` is what it does on strings of ASCII characters.
-/

namespace UsedCars

/-! ## JavaScript numbers -/

/-- A JavaScript number: a finite value, `NaN`, `Infinity` or `-Infinity`. -/
inductive JSNum where
  | fin (q : ℚ)
  | nan
  | posInf
  | negInf
  deriving DecidableEq

/-- The exact rounding: every rational is a number. -/
def exactRational : ℚ → JSNum := JSNum.fin

/-- The least magnitude that rounds to an infinity in binary64,
`2^1024 - 2^970`. -/
def overflowBound : ℚ := 2 ^ 1024 - 2 ^ 970

/-- The greatest magnitude that rounds to zero in binary64, `2^-1075`. -/
def underflowBound : ℚ := 1 / 2 ^ 1075

/-- The rounding of the range of binary64: a result at or beyond the overflow
bound is an infinity, a result at or below the underflow bound is zero, and a
result in between is kept as it is. -/
def binary64 (q : ℚ) : JSNum :=
  if overflowBound ≤ q then JSNum.posInf
  else if q ≤ -overflowBound then JSNum.negInf
  else if |q| ≤ underflowBound then JSNum.fin 0
  else JSNum.fin q

namespace JSNum

/-- The number is finite (`Number.isFinite`). -/
def isFinite : JSNum → Bool
  | fin _ => true
  | _ => false

/-- JavaScript `ToBoolean` on a number: `0` and `NaN` are falsy. -/
def truthy : JSNum → Bool
  | fin q => decide (q ≠ 0)
  | nan => false
  | posInf => true
  | negInf => true

/-- JavaScript `a > b` on numbers; every comparison with `NaN` is false. -/
def gt : JSNum → JSNum → Bool
  | fin a, fin b => decide (b < a)
  | fin _, negInf => true
  | posInf, fin _ => true
  | posInf, negInf => true
  | _, _ => false

/-- JavaScript `a - b` on numbers, the finite result rounded by `r`. -/
def sub (r : ℚ → JSNum) : JSNum → JSNum → JSNum
  | fin a, fin b => r (a - b)
  | fin _, posInf => negInf
  | fin _, negInf => posInf
  | posInf, fin _ => posInf
  | posInf, negInf => posInf
  | negInf, fin _ => negInf
  | negInf, posInf => negInf
  | _, _ => nan

/-- JavaScript `a / b` on numbers, the finite result rounded by `r` (a zero
divisor is taken as `+0`). -/
def div (r : ℚ → JSNum) : JSNum → JSNum → JSNum
  | fin a, fin b =>
    if b ≠ 0 then r (a / b)
    else if a = 0 then nan
    else if 0 < a then posInf else negInf
  | fin _, posInf => fin 0
  | fin _, negInf => fin 0
  | posInf, fin b => if 0 ≤ b then posInf else negInf
  | negInf, fin b => if 0 ≤ b then negInf else posInf
  | _, _ => nan

/-- JavaScript `-x` on numbers. -/
def neg : JSNum → JSNum
  | fin q => fin (-q)
  | nan => nan
  | posInf => negInf
  | negInf => posInf

/-- The number a literal with this exact value is: a finite value rounded by
`r`. -/
def round (r : ℚ → JSNum) : JSNum → JSNum
  | fin q => r q
  | x => x

end JSNum

/-- JavaScript `xs[i]` on an array of numbers, read as a number: past the end
the read is `undefined`, which arithmetic turns into `NaN`. -/
def idx (xs : List JSNum) (i : Nat) : JSNum :=
  xs[i]?.getD JSNum.nan

/-! ## JavaScript values -/

/-- A JavaScript value as a read of `FREQ_MAP` can give it: a number,
`undefined`, or an object or function (a member of `Object.prototype`). -/
inductive JSVal where
  | num (x : JSNum)
  | undefined
  | object
  deriving DecidableEq

namespace JSVal

/-- JavaScript `ToBoolean`: `undefined` is falsy, an object is truthy. -/
def truthy : JSVal → Bool
  | num x => x.truthy
  | undefined => false
  | object => true

/-- JavaScript `ToNumber` as arithmetic applies it: `undefined` is `NaN`, and
so is a member of `Object.prototype` (its string form is not a numeral). -/
def toNumber : JSVal → JSNum
  | num x => x
  | undefined => JSNum.nan
  | object => JSNum.nan

/-- JavaScript `v || d`. -/
def orElse (v d : JSVal) : JSVal :=
  if v.truthy then v else d

end JSVal

/-- JavaScript `v[i]` on an array of values, as arithmetic reads it: past the
end the read is `undefined`. -/
def slot (v : List JSVal) (i : Nat) : JSNum :=
  (v[i]?.getD JSVal.undefined).toNumber

/-! ## JavaScript strings -/

/-- The code points `String.prototype.trim` and `parseFloat` strip:
WhiteSpace and LineTerminator of ECMAScript. -/
def isJSWhitespace (c : Char) : Bool :=
  let n := c.toNat
  n = 0x09 || n = 0x0A || n = 0x0B || n = 0x0C || n = 0x0D || n = 0x20 ||
  n = 0xA0 || n = 0x1680 || (0x2000 ≤ n && n ≤ 0x200A) || n = 0x2028 ||
  n = 0x2029 || n = 0x202F || n = 0x205F || n = 0x3000 || n = 0xFEFF

/-- What `String.prototype.toLowerCase` does on a string of ASCII characters:
the letters A to Z are lowered.  Used for the concrete inputs only. -/
def asciiLower (s : String) : String :=
  String.mk (s.data.map Char.toLower)

/-- The method `String.prototype.trim`. -/
def trim (s : String) : String :=
  String.mk ((s.data.dropWhile isJSWhitespace).reverse.dropWhile isJSWhitespace).reverse

/-- Reads the leading decimal digits of `cs`: their value on top of `acc`,
how many there were on top of `n`, and the rest. -/
def takeDigits : List Char → Nat → Nat → Nat × Nat × List Char
  | [], acc, n => (acc, n, [])
  | c :: cs, acc, n =>
    if c.isDigit then takeDigits cs (acc * 10 + (c.toNat - 48)) (n + 1)
    else (acc, n, c :: cs)

/-- The value of an ExponentPart at the head of `cs`, `0` when there is no
complete one (`1e` and `1e+` read as `1`). -/
def parseExponent (cs : List Char) : Int :=
  match cs with
  | c :: r =>
    if c = 'e' ∨ c = 'E' then
      match r with
      | '+' :: r2 =>
        let d := takeDigits r2 0 0
        if d.2.1 = 0 then 0 else (d.1 : Int)
      | '-' :: r2 =>
        let d := takeDigits r2 0 0
        if d.2.1 = 0 then 0 else -(d.1 : Int)
      | _ =>
        let d := takeDigits r 0 0
        if d.2.1 = 0 then 0 else (d.1 : Int)
    else 0
  | [] => 0

/-- The longest prefix of `cs` that is a StrUnsignedDecimalLiteral, by its
exact mathematical value; `none` when no prefix is one. -/
def parseUnsigned (cs : List Char) : Option JSNum :=
  if "Infinity".data.isPrefixOf cs then some JSNum.posInf
  else
    let ip := takeDigits cs 0 0
    let fp : Nat × Nat × List Char :=
      match ip.2.2 with
      | '.' :: r => takeDigits r 0 0
      | r => (0, 0, r)
    if ip.2.1 = 0 ∧ fp.2.1 = 0 then none
    else
      let e := parseExponent fp.2.2
      some (JSNum.fin (((ip.1 * 10 ^ fp.2.1 + fp.1 : Nat) : ℚ) * (10 : ℚ) ^ (e - (fp.2.1 : Int))))

/-- The exact mathematical value of the longest prefix of `s`, after its
leading white space, that is a StrDecimalLiteral; `NaN` when there is none. -/
def literalValue (s : String) : JSNum :=
  match s.data.dropWhile isJSWhitespace with
  | '+' :: r => (parseUnsigned r).getD JSNum.nan
  | '-' :: r => ((parseUnsigned r).map JSNum.neg).getD JSNum.nan
  | cs => (parseUnsigned cs).getD JSNum.nan

/-- The global `parseFloat`: the value of the literal, rounded by `r`. -/
def parseFloat (r : ℚ → JSNum) (s : String) : JSNum :=
  (literalValue s).round r

/-! ## The page and what is outside `main.js` -/

/-- A value that was thrown, or that a promise was rejected with, as far as
the script looks at it.  `error m` is a value for which the text of the alert
can be built, `m` being what `err.message` appends to it (for an `Error`, its
message); `nullish` is `null` or `undefined`, on which reading `err.message`
throws a `TypeError`. -/
inductive Thrown where
  | error (message : String)
  | nullish
  deriving DecidableEq

/-- A loaded `ort.InferenceSession`, as far as `main.js` uses it.  `run` is
the inference engine behind lines 131 to 141: the `Float32Array` of the
scaled values goes into a `[1, 8]` tensor, `session.run(feeds)` is awaited
and `results[outputName].data[0]` is read; a rejection or a throw anywhere on
that way is the error. -/
structure Session where
  inputNames : List String
  outputNames : List String
  inputTypes : Option (List (String × String))
  run : List JSNum → Except Thrown JSNum

/-- Modelled from the spec: `FREQ_MAP` is defined outside `main.js`; section 3
makes it a mapping from model name to numeric frequency score.  It is taken
as an ordinary JavaScript object whose own properties are these names with
their scores, so that a read of it also finds what `Object.prototype`
provides. -/
abbrev FreqMap := List (String × ℚ)

/-- Modelled from the spec: the scores of a frequency map are positive
(section 3). -/
def PositiveScores (freqMap : FreqMap) : Prop :=
  ∀ e ∈ freqMap, 0 < e.2

/-- The names of the properties that an ordinary object inherits from
`Object.prototype`. -/
def objectPrototypeNames : List String :=
  ["constructor", "__defineGetter__", "__defineSetter__", "hasOwnProperty",
   "__lookupGetter__", "__lookupSetter__", "isPrototypeOf", "propertyIsEnumerable",
   "toString", "valueOf", "__proto__", "toLocaleString"]

/-- The property read `FREQ_MAP[name]`: the score of an own property, else the
member of `Object.prototype` of that name, else `undefined`. -/
def readFreq (freqMap : FreqMap) (name : String) : JSVal :=
  match freqMap.lookup name with
  | some score => JSVal.num (JSNum.fin score)
  | none => if name ∈ objectPrototypeNames then JSVal.object else JSVal.undefined

/-- One call of `console.log` or `console.error`. -/
inductive LogEntry where
  | modelLoaded
  | inputNames (names : List String)
  | outputNames (names : List String)
  | inputTypes (types : List (String × String))
  | loadError (err : Thrown)
  | inferenceStart
  | rawValues (v : List JSVal)
  | scaledValues (v : List JSNum)
  | rawResults (output : JSNum)
  | finalPrediction (output : JSNum)
  | inferenceError (err : Thrown)

/-- The mutable state `main.js` works on: the global `session`, the DOM
elements it holds, the console, the alerts shown, and the vectors handed to
the inference engine so far. -/
structure Page where
  session : Option Session
  statusText : String
  statusClasses : List String
  loaderClasses : List String
  runDisabled : Bool
  runText : String
  resultClasses : List String
  resultText : String
  console : List LogEntry
  alerts : List String
  runs : List (List JSNum)

/-- What the script finds around it: the rounding of the host's numbers, its
`String.prototype.toLowerCase`, the globals of `model_data.js` (absent when
the file did not load), `atob`, `ort.InferenceSession.create`, and the locale
formatting of `Number(output).toLocaleString`. -/
structure Env where
  round : ℚ → JSNum
  toLowerCase : String → String
  MODEL_BASE64 : Option String
  FREQ_MAP : Option FreqMap
  atob : String → Except Thrown String
  create : List Nat → Except Thrown Session
  formatPrice : JSNum → String

/-- The `value` of the form element with the given id, as
`document.getElementById(id).value` reads it. -/
abbrev Form := String → String

/-- The method `classList.add`. -/
def classAdd (c : String) (l : List String) : List String :=
  if c ∈ l then l else l ++ [c]

/-- The method `classList.remove`. -/
def classRemove (c : String) (l : List String) : List String :=
  l.filter (fun x => x ≠ c)

/-- The outcome of running a piece of the script: it returns, or it throws a
value, in both cases with the page as it left it. -/
inductive Res (α : Type) where
  | ok (a : α) (p : Page)
  | throw (err : Thrown) (p : Page)

/-- A piece of the script. -/
abbrev JS (α : Type) := Page → Res α

/-- The page a run ends on. -/
def Res.page {α : Type} : Res α → Page
  | Res.ok _ p => p
  | Res.throw _ p => p

/-- The run threw (for an async function: its promise was rejected). -/
def Res.threw {α : Type} : Res α → Bool
  | Res.ok _ _ => false
  | Res.throw _ _ => true

/-- A `try` block with a `catch` block: the handler runs on the page the body
left when it threw, with the thrown value. -/
def tryCatch (body : JS Unit) (handler : Thrown → JS Unit) : JS Unit := fun p =>
  match body p with
  | Res.ok _ p1 => Res.ok () p1
  | Res.throw e p1 => handler e p1

/-- A `try` block with `catch` and `finally`: the finalizer runs after the
body or the handler, and what the handler threw is thrown on after it. -/
def tryCatchFinally (body : JS Unit) (handler : Thrown → JS Unit) (fin : JS Unit) :
    JS Unit := fun p =>
  match tryCatch body handler p with
  | Res.ok _ p1 => fin p1
  | Res.throw e p1 =>
    match fin p1 with
    | Res.ok _ p2 => Res.throw e p2
    | Res.throw e2 p2 => Res.throw e2 p2

/-! ## `base64ToBuffer` and `initModel` -/

/-- The helper `base64ToBuffer`: the bytes of `atob(base64)`, one
`Uint8Array` cell per character code. -/
def base64ToBuffer (env : Env) (base64 : String) : Except Thrown (List Nat) :=
  match env.atob base64 with
  | Except.error e => Except.error e
  | Except.ok binString => Except.ok (binString.data.map (fun c => c.toNat % 256))

/-- The `try` block of `initModel` (lines 25 to 53). -/
def initModelBody (env : Env) : JS Unit := fun p =>
  let p1 := { p with
    loaderClasses := classRemove "hidden" p.loaderClasses
    statusText := "Analyzing model..." }
  match env.MODEL_BASE64 with
  | none => Res.throw (Thrown.error "Model data missing. model_data.js not loaded.") p1
  | some b64 =>
    match base64ToBuffer env b64 with
    | Except.error e => Res.throw e p1
    | Except.ok modelBuffer =>
      match env.create modelBuffer with
      | Except.error e => Res.throw e p1
      | Except.ok s =>
        let logs := [LogEntry.modelLoaded, LogEntry.inputNames s.inputNames,
          LogEntry.outputNames s.outputNames] ++
          (match s.inputTypes with
           | some t => [LogEntry.inputTypes t]
           | none => [])
        Res.ok () { p1 with
          session := some s
          statusText := "Model Ready"
          statusClasses := classAdd "ready" p1.statusClasses
          loaderClasses := classAdd "hidden" p1.loaderClasses
          runDisabled := false
          console := p1.console ++ logs }

/-- The `catch` block of `initModel` (lines 55 to 60); it does not look into
the value it caught. -/
def initModelCatch (err : Thrown) : JS Unit := fun p =>
  Res.ok () { p with
    console := p.console ++ [LogEntry.loadError err]
    statusText := "System Error"
    statusClasses := classAdd "error" p.statusClasses
    loaderClasses := classAdd "hidden" p.loaderClasses }

/-- The loader `initModel` (lines 23 to 61). -/
def initModel (env : Env) : JS Unit :=
  tryCatch (initModelBody env) initModelCatch

/-! ## Feature preparation and `form.onsubmit` -/

/-- Scaling means of line 65, as exact decimals. -/
def SCALING_MEAN : List JSNum :=
  [JSNum.fin 177.62431826259606, JSNum.fin 2.7129042932604515,
   JSNum.fin 5.882453151618399, JSNum.fin 0.9710882060961112,
   JSNum.fin 121739.12073339625, JSNum.fin 0.9238169941048865,
   JSNum.fin 1.057431397301239, JSNum.fin 17.380767958035616]

/-- Scaling standard deviations of line 66, as exact decimals. -/
def SCALING_STD : List JSNum :=
  [JSNum.fin 283.53371191795486, JSNum.fin 0.7306282533024211,
   JSNum.fin 1.6256224551274014, JSNum.fin 0.3256881776561781,
   JSNum.fin 206713.83456102648, JSNum.fin 0.2652907000026549,
   JSNum.fin 0.8860048265932386, JSNum.fin 9.566076237447591]

/-- The object `rawInputs` of lines 96 to 105. -/
structure RawInputs where
  model : JSVal
  condition : JSNum
  cylinders : JSNum
  fuel : JSNum
  odometer : JSNum
  transmission : JSNum
  drive : JSNum
  year : JSNum

/-- Line 93: the model name as typed, lowercased and trimmed. -/
def modelName (lower : String → String) (form : Form) : String :=
  trim (lower (form "model"))

/-- Line 94: `FREQ_MAP[modelName] || 1`. -/
def modelFreq (freqMap : FreqMap) (name : String) : JSVal :=
  (readFreq freqMap name).orElse (JSVal.num (JSNum.fin 1))

/-- Lines 96 to 105: the raw inputs. -/
def collectRaw (r : ℚ → JSNum) (lower : String → String) (freqMap : FreqMap)
    (form : Form) : RawInputs :=
  { model := modelFreq freqMap (modelName lower form)
    condition := parseFloat r (form "condition")
    cylinders := parseFloat r (form "cylinders")
    fuel := parseFloat r (form "fuel")
    odometer := parseFloat r (form "odometer")
    transmission := parseFloat r (form "transmission")
    drive := parseFloat r (form "drive")
    year := parseFloat r (form "year") }

/-- Line 108: the odometer is capped at ten million. -/
def clampOdometer (raw : RawInputs) : RawInputs :=
  if JSNum.gt raw.odometer (JSNum.fin 10000000) then
    { raw with odometer := JSNum.fin 10000000 }
  else raw

/-- Line 109: `2026 - rawInputs.year`. -/
def carAge (r : ℚ → JSNum) (raw : RawInputs) : JSNum :=
  JSNum.sub r (JSNum.fin 2026) raw.year

/-- Lines 113 to 122: the values in the order of `feature_names`. -/
def orderedInputs (r : ℚ → JSNum) (lower : String → String) (freqMap : FreqMap)
    (form : Form) : List JSVal :=
  let raw := clampOdometer (collectRaw r lower freqMap form)
  [raw.model, JSVal.num raw.condition, JSVal.num raw.cylinders, JSVal.num raw.fuel,
   JSVal.num raw.odometer, JSVal.num raw.transmission, JSVal.num raw.drive,
   JSVal.num (carAge r raw)]

/-- Line 125: `v.map((val, i) => (val - SCALING_MEAN[i]) / SCALING_STD[i])`. -/
def scale (r : ℚ → JSNum) (v : List JSVal) : List JSNum :=
  v.mapIdx (fun i val =>
    JSNum.div r (JSNum.sub r val.toNumber (idx SCALING_MEAN i)) (idx SCALING_STD i))

/-- Line 125 in the handler: `scaledInputs`. -/
def scaledInputs (r : ℚ → JSNum) (lower : String → String) (freqMap : FreqMap)
    (form : Form) : List JSNum :=
  scale r (orderedInputs r lower freqMap form)

/-- The `try` block of the submit handler (lines 89 to 150). -/
def submitBody (env : Env) (form : Form) (session : Session) : JS Unit := fun p =>
  let p1 := { p with runDisabled := true, runText := "Calculating..." }
  match env.FREQ_MAP with
  | none => Res.throw (Thrown.error "FREQ_MAP is not defined") p1
  | some freqMap =>
    let ordered := orderedInputs env.round env.toLowerCase freqMap form
    let scaled := scale env.round ordered
    let p2 := { p1 with
      console := p1.console ++
        [LogEntry.inferenceStart, LogEntry.rawValues ordered, LogEntry.scaledValues scaled]
      runs := p1.runs ++ [scaled] }
    match session.run scaled with
    | Except.error e => Res.throw e p2
    | Except.ok output =>
      Res.ok () { p2 with
        resultText := "$" ++ env.formatPrice output
        resultClasses := classRemove "hidden" p2.resultClasses
        console := p2.console ++ [LogEntry.rawResults output, LogEntry.finalPrediction output] }

/-- The `catch` block of the submit handler (lines 152 to 154):
`console.error` prints the caught value, then the argument of `alert` reads
`err.message`, which throws a `TypeError` when the value is `null` or
`undefined`, before any alert is shown. -/
def submitCatch (err : Thrown) : JS Unit := fun p =>
  let p1 := { p with console := p.console ++ [LogEntry.inferenceError err] }
  match err with
  | Thrown.error message =>
    Res.ok () { p1 with
      alerts := p1.alerts ++ ["Prediction failed. System reported: " ++ message] }
  | Thrown.nullish =>
    Res.throw (Thrown.error "Cannot read properties of null") p1

/-- The `finally` block of the submit handler (lines 155 to 158). -/
def submitFinally : JS Unit := fun p =>
  Res.ok () { p with runDisabled := false, runText := "Predict Price" }

/-- The handler `form.onsubmit` (lines 84 to 159): after `e.preventDefault()`
it returns at once when no session is loaded. -/
def onsubmit (env : Env) (form : Form) : JS Unit := fun p =>
  match p.session with
  | none => Res.ok () p
  | some session =>
    tryCatchFinally (submitBody env form session) submitCatch submitFinally p

/-- The vectors that `console.log('Raw Values:', ...)` has printed. -/
def loggedRaw (p : Page) : List (List JSVal) :=
  p.console.filterMap (fun e =>
    match e with
    | LogEntry.rawValues v => some v
    | _ => none)

/-- The vectors that `console.log('Scaled Values:', ...)` has printed. -/
def loggedScaled (p : Page) : List (List JSNum) :=
  p.console.filterMap (fun e =>
    match e with
    | LogEntry.scaledValues v => some v
    | _ => none)

/-- The submit handler run once for each form of a list, in turn. -/
def submitAll (env : Env) : List Form → Page → Page
  | [], p => p
  | form :: rest, p => submitAll env rest (onsubmit env form p).page

/-! ## Concrete inputs -/

/-- A form filled in with the given eight values. -/
def formOf (model condition cylinders fuel odometer transmission drive year : String) :
    Form := fun id =>
  if id = "model" then model
  else if id = "condition" then condition
  else if id = "cylinders" then cylinders
  else if id = "fuel" then fuel
  else if id = "odometer" then odometer
  else if id = "transmission" then transmission
  else if id = "drive" then drive
  else if id = "year" then year
  else ""

/-- The submission of the end-to-end example of the specification. -/
def f150Form : Form := formOf "f-150" "3" "6" "1" "85000" "1" "1" "2015"

/-- The frequency map of the end-to-end example. -/
def f150Map : FreqMap := [("f-150", 200)]

/-- A session whose engine answers every vector with the same price. -/
def steadySession : Session :=
  { inputNames := ["float_input"]
    outputNames := ["variable"]
    inputTypes := none
    run := fun _ => Except.ok (JSNum.fin 15000) }

/-- A session whose engine rejects every vector with `null`. -/
def nullRejectingSession : Session :=
  { inputNames := ["float_input"]
    outputNames := ["variable"]
    inputTypes := none
    run := fun _ => Except.error Thrown.nullish }

/-- An environment with the numbers of binary64 in which both globals of
`model_data.js` are there. -/
def fullEnv : Env :=
  { round := binary64
    toLowerCase := asciiLower
    MODEL_BASE64 := some "AAAA"
    FREQ_MAP := some f150Map
    atob := fun _ => Except.ok "onnx"
    create := fun _ => Except.ok steadySession
    formatPrice := fun _ => "15,000" }

/-- An environment in which the model blob is there and `FREQ_MAP` is not. -/
def noFreqEnv : Env := { fullEnv with FREQ_MAP := none }

/-- An environment in which `MODEL_BASE64` is not defined. -/
def noModelEnv : Env := { fullEnv with MODEL_BASE64 := none }

/-- A page before `initModel` has run: no session, nothing logged, and here
the run button disabled. -/
def freshPage : Page :=
  { session := none
    statusText := "Loading..."
    statusClasses := []
    loaderClasses := []
    runDisabled := true
    runText := "Predict Price"
    resultClasses := ["hidden"]
    resultText := ""
    console := []
    alerts := []
    runs := [] }

/-- A page on which the given session has been loaded. -/
def pageWith (s : Session) : Page :=
  { freshPage with
    session := some s
    statusText := "Model Ready"
    statusClasses := ["ready"]
    loaderClasses := ["hidden"]
    runDisabled := false }

/-! ## Lemmas on the parts -/

/-- Between the two bounds `binary64` keeps a result as it is. -/
theorem binary64_of_mid (q : ℚ) (h1 : 1 / 10 ^ 300 ≤ |q|) (h2 : |q| ≤ 10 ^ 308) :
    binary64 q = JSNum.fin q := by
  have hB : (10 : ℚ) ^ 308 < overflowBound := by
    unfold overflowBound
    norm_num
  have hU : underflowBound < (1 : ℚ) / 10 ^ 300 := by
    unfold underflowBound
    norm_num
  have hq := abs_le.mp h2
  unfold binary64
  rw [if_neg (by linarith), if_neg (by linarith), if_neg (by linarith)]

/-- Below the overflow bound `binary64` gives a finite number. -/
theorem binary64_finite (q : ℚ) (h : |q| ≤ 10 ^ 308) :
    ∃ q' : ℚ, binary64 q = JSNum.fin q' ∧ |q'| ≤ |q| := by
  have hB : (10 : ℚ) ^ 308 < overflowBound := by
    unfold overflowBound
    norm_num
  have hq := abs_le.mp h
  unfold binary64
  rw [if_neg (by linarith), if_neg (by linarith)]
  by_cases hu : |q| ≤ underflowBound
  · rw [if_pos hu]
    exact ⟨0, rfl, by simp⟩
  · rw [if_neg hu]
    exact ⟨q, rfl, le_refl _⟩

/-- A number is finite exactly when it is a rational. -/
theorem isFinite_iff (x : JSNum) : x.isFinite = true ↔ ∃ q : ℚ, x = JSNum.fin q := by
  cases x <;> simp [JSNum.isFinite]

/-- The parse of a string whose literal has a finite value. -/
theorem parseFloat_of_literal (r : ℚ → JSNum) (s : String) (q : ℚ)
    (h : literalValue s = JSNum.fin q) : parseFloat r s = r q := by
  simp [parseFloat, h, JSNum.round]

/-- The parse of a string that holds no literal. -/
theorem parseFloat_of_nan (r : ℚ → JSNum) (s : String)
    (h : literalValue s = JSNum.nan) : parseFloat r s = JSNum.nan := by
  simp [parseFloat, h, JSNum.round]

/-- A read that finds an own property gives its score, or the default 1 when
the score is 0. -/
theorem modelFreq_of_lookup_some (freqMap : FreqMap) (name : String) (v : ℚ)
    (h : freqMap.lookup name = some v) :
    modelFreq freqMap name =
      if v ≠ 0 then JSVal.num (JSNum.fin v) else JSVal.num (JSNum.fin 1) := by
  by_cases hv : v = 0 <;>
    simp [modelFreq, readFreq, h, JSVal.orElse, JSVal.truthy, JSNum.truthy, hv]

/-- A read that finds nothing gives the default 1. -/
theorem modelFreq_of_undefined (freqMap : FreqMap) (name : String)
    (h : readFreq freqMap name = JSVal.undefined) :
    modelFreq freqMap name = JSVal.num (JSNum.fin 1) := by
  simp [modelFreq, h, JSVal.orElse, JSVal.truthy]

/-- A read finds nothing exactly when the name is neither an own property nor
a property of `Object.prototype`. -/
theorem readFreq_undefined_iff (freqMap : FreqMap) (name : String) :
    readFreq freqMap name = JSVal.undefined ↔
      freqMap.lookup name = none ∧ name ∉ objectPrototypeNames := by
  unfold readFreq
  cases h : freqMap.lookup name with
  | none =>
    by_cases hn : name ∈ objectPrototypeNames <;> simp [hn]
  | some v => simp

/-- A name that is no own property and no property of `Object.prototype`
gives the default 1. -/
theorem modelFreq_of_lookup_none (freqMap : FreqMap) (name : String)
    (h : freqMap.lookup name = none) (hn : name ∉ objectPrototypeNames) :
    modelFreq freqMap name = JSVal.num (JSNum.fin 1) :=
  modelFreq_of_undefined freqMap name ((readFreq_undefined_iff freqMap name).mpr ⟨h, hn⟩)

/-- A name that is no own property but a property of `Object.prototype` gives
the inherited member. -/
theorem modelFreq_of_inherited (freqMap : FreqMap) (name : String)
    (h : freqMap.lookup name = none) (hn : name ∈ objectPrototypeNames) :
    modelFreq freqMap name = JSVal.object := by
  simp [modelFreq, readFreq, h, hn, JSVal.orElse, JSVal.truthy]

/-- The model frequency is never the number 0. -/
theorem modelFreq_ne_zero (freqMap : FreqMap) (name : String) :
    modelFreq freqMap name ≠ JSVal.num (JSNum.fin 0) := by
  cases h : freqMap.lookup name with
  | some v =>
    rw [modelFreq_of_lookup_some freqMap name v h]
    by_cases hv : v = 0
    · simp [hv]
    · simp [hv]
  | none =>
    by_cases hn : name ∈ objectPrototypeNames
    · rw [modelFreq_of_inherited freqMap name h hn]
      simp
    · rw [modelFreq_of_lookup_none freqMap name h hn]
      simp

/-- The ordered vector, entry by entry. -/
theorem orderedInputs_eq (r : ℚ → JSNum) (lower : String → String) (freqMap : FreqMap)
    (form : Form) :
    orderedInputs r lower freqMap form =
      [modelFreq freqMap (modelName lower form), JSVal.num (parseFloat r (form "condition")),
       JSVal.num (parseFloat r (form "cylinders")), JSVal.num (parseFloat r (form "fuel")),
       JSVal.num (if JSNum.gt (parseFloat r (form "odometer")) (JSNum.fin 10000000) then
          JSNum.fin 10000000 else parseFloat r (form "odometer")),
       JSVal.num (parseFloat r (form "transmission")), JSVal.num (parseFloat r (form "drive")),
       JSVal.num (JSNum.sub r (JSNum.fin 2026) (parseFloat r (form "year")))] := by
  unfold orderedInputs clampOdometer carAge collectRaw
  by_cases h : JSNum.gt (parseFloat r (form "odometer")) (JSNum.fin 10000000) = true <;>
    simp [h]

/-- The page after a submit on which the engine answered. -/
theorem submit_page_of_run_ok (env : Env) (form : Form) (p : Page) (s : Session)
    (freqMap : FreqMap) (output : JSNum) (hs : p.session = some s)
    (hf : env.FREQ_MAP = some freqMap)
    (hr : s.run (scale env.round (orderedInputs env.round env.toLowerCase freqMap form)) =
      Except.ok output) :
    onsubmit env form p = Res.ok ()
      { p with
        runDisabled := false
        runText := "Predict Price"
        resultText := "$" ++ env.formatPrice output
        resultClasses := classRemove "hidden" p.resultClasses
        console := p.console ++
          [LogEntry.inferenceStart,
           LogEntry.rawValues (orderedInputs env.round env.toLowerCase freqMap form),
           LogEntry.scaledValues
             (scale env.round (orderedInputs env.round env.toLowerCase freqMap form))] ++
          [LogEntry.rawResults output, LogEntry.finalPrediction output]
        runs := p.runs ++
          [scale env.round (orderedInputs env.round env.toLowerCase freqMap form)] } := by
  simp [onsubmit, tryCatchFinally, tryCatch, submitBody, submitFinally, hs, hf, hr]

/-- The page after a submit on which the engine failed with a value other
than `null` and `undefined`. -/
theorem submit_page_of_run_error (env : Env) (form : Form) (p : Page) (s : Session)
    (freqMap : FreqMap) (m : String) (hs : p.session = some s)
    (hf : env.FREQ_MAP = some freqMap)
    (hr : s.run (scale env.round (orderedInputs env.round env.toLowerCase freqMap form)) =
      Except.error (Thrown.error m)) :
    onsubmit env form p = Res.ok ()
      { p with
        runDisabled := false
        runText := "Predict Price"
        console := p.console ++
          [LogEntry.inferenceStart,
           LogEntry.rawValues (orderedInputs env.round env.toLowerCase freqMap form),
           LogEntry.scaledValues
             (scale env.round (orderedInputs env.round env.toLowerCase freqMap form))] ++
          [LogEntry.inferenceError (Thrown.error m)]
        alerts := p.alerts ++ ["Prediction failed. System reported: " ++ m]
        runs := p.runs ++
          [scale env.round (orderedInputs env.round env.toLowerCase freqMap form)] } := by
  simp [onsubmit, tryCatchFinally, tryCatch, submitBody, submitFinally, submitCatch, hs, hf,
    hr]

/-- The outcome of a submit on which the engine failed with `null` or
`undefined`: the catch block throws, and the handler with it. -/
theorem submit_page_of_run_nullish (env : Env) (form : Form) (p : Page) (s : Session)
    (freqMap : FreqMap) (hs : p.session = some s) (hf : env.FREQ_MAP = some freqMap)
    (hr : s.run (scale env.round (orderedInputs env.round env.toLowerCase freqMap form)) =
      Except.error Thrown.nullish) :
    onsubmit env form p = Res.throw (Thrown.error "Cannot read properties of null")
      { p with
        runDisabled := false
        runText := "Predict Price"
        console := p.console ++
          [LogEntry.inferenceStart,
           LogEntry.rawValues (orderedInputs env.round env.toLowerCase freqMap form),
           LogEntry.scaledValues
             (scale env.round (orderedInputs env.round env.toLowerCase freqMap form))] ++
          [LogEntry.inferenceError Thrown.nullish]
        runs := p.runs ++
          [scale env.round (orderedInputs env.round env.toLowerCase freqMap form)] } := by
  simp [onsubmit, tryCatchFinally, tryCatch, submitBody, submitFinally, submitCatch, hs, hf,
    hr]

/-- The page after a submit made while `FREQ_MAP` is not defined. -/
theorem submit_page_of_no_freq_map (env : Env) (form : Form) (p : Page) (s : Session)
    (hs : p.session = some s) (hf : env.FREQ_MAP = none) :
    onsubmit env form p = Res.ok ()
      { p with
        runDisabled := false
        runText := "Predict Price"
        console := p.console ++
          [LogEntry.inferenceError (Thrown.error "FREQ_MAP is not defined")]
        alerts := p.alerts ++ ["Prediction failed. System reported: FREQ_MAP is not defined"] } := by
  simp [onsubmit, tryCatchFinally, tryCatch, submitBody, submitFinally, submitCatch, hs, hf]

/-- A submit made while no session is loaded changes nothing. -/
theorem submit_page_of_no_session (env : Env) (form : Form) (p : Page)
    (hs : p.session = none) : onsubmit env form p = Res.ok () p := by
  simp [onsubmit, hs]

/-- What a submit prints and hands to the engine when the frequency map is
defined. -/
theorem submit_logs_and_runs (env : Env) (form : Form) (p : Page) (s : Session)
    (freqMap : FreqMap) (hs : p.session = some s) (hf : env.FREQ_MAP = some freqMap) :
    loggedRaw (onsubmit env form p).page =
      loggedRaw p ++ [orderedInputs env.round env.toLowerCase freqMap form] ∧
    loggedScaled (onsubmit env form p).page =
      loggedScaled p ++
        [scale env.round (orderedInputs env.round env.toLowerCase freqMap form)] ∧
    (onsubmit env form p).page.runs =
      p.runs ++ [scale env.round (orderedInputs env.round env.toLowerCase freqMap form)] := by
  cases hr : s.run (scale env.round (orderedInputs env.round env.toLowerCase freqMap form)) with
  | error e =>
    cases e with
    | error m =>
      rw [submit_page_of_run_error env form p s freqMap m hs hf hr]
      simp [Res.page, loggedRaw, loggedScaled, List.filterMap_append]
    | nullish =>
      rw [submit_page_of_run_nullish env form p s freqMap hs hf hr]
      simp [Res.page, loggedRaw, loggedScaled, List.filterMap_append]
  | ok output =>
    rw [submit_page_of_run_ok env form p s freqMap output hs hf hr]
    simp [Res.page, loggedRaw, loggedScaled, List.filterMap_append]

/-- The submit handler throws exactly when a session is loaded and the try
block threw `null` or `undefined`. -/
theorem onsubmit_threw_iff (env : Env) (form : Form) (p : Page) (s : Session)
    (hs : p.session = some s) :
    (onsubmit env form p).threw = true ↔
      ∃ q : Page, submitBody env form s p = Res.throw Thrown.nullish q := by
  simp only [onsubmit, hs, tryCatchFinally, tryCatch]
  cases hb : submitBody env form s p with
  | ok a q => simp [submitFinally, Res.threw]
  | throw e q =>
    cases e with
    | error m => simp [submitCatch, submitFinally, Res.threw]
    | nullish => simp [submitCatch, submitFinally, Res.threw]

/-- The try block of the submit handler throws `null` or `undefined` only
when the engine rejected with it. -/
theorem submitBody_nullish (env : Env) (form : Form) (p : Page) (s : Session)
    (freqMap : FreqMap) (hf : env.FREQ_MAP = some freqMap) (q : Page)
    (h : submitBody env form s p = Res.throw Thrown.nullish q) :
    s.run (scale env.round (orderedInputs env.round env.toLowerCase freqMap form)) =
      Except.error Thrown.nullish := by
  unfold submitBody at h
  simp only [hf] at h
  cases hr : s.run (scale env.round (orderedInputs env.round env.toLowerCase freqMap form)) with
  | ok output =>
    rw [hr] at h
    cases h
  | error e =>
    rw [hr] at h
    injection h with he _
    rw [he]

/-- The entry of the scaled vector at a position of the raw vector. -/
theorem idx_scale (r : ℚ → JSNum) (v : List JSVal) (i : Nat) (hi : i < v.length) :
    idx (scale r v) i =
      JSNum.div r (JSNum.sub r (slot v i) (idx SCALING_MEAN i))
        (idx SCALING_STD i) := by
  simp [scale, idx, slot, List.getElem?_eq_getElem hi]

/-- Scaling keeps `NaN` where it is. -/
theorem scale_nan (r : ℚ → JSNum) (v : List JSVal) (i : Nat) (hi : i < v.length)
    (h : slot v i = JSNum.nan) :
    idx (scale r v) i = JSNum.nan := by
  rw [idx_scale r v i hi, h]
  rfl

/-- After `classList.add` the class is there. -/
theorem mem_classAdd (c : String) (l : List String) : c ∈ classAdd c l := by
  unfold classAdd
  by_cases h : c ∈ l <;> simp [h]

/-- Submits made while no session is loaded change nothing. -/
theorem submitAll_of_no_session (env : Env) (forms : List Form) (p : Page)
    (hs : p.session = none) : submitAll env forms p = p := by
  induction forms with
  | nil => rfl
  | cons form rest ih =>
    rw [submitAll, submit_page_of_no_session env form p hs]
    exact ih

/-- When the try block of `initModel` throws, the catch block runs. -/
theorem initModel_of_body_throw (env : Env) (p : Page) (e : Thrown) (q : Page)
    (h : initModelBody env p = Res.throw e q) :
    initModel env p = initModelCatch e q := by
  simp [initModel, tryCatch, h]

/-- The page on which the try block of `initModel` throws. -/
theorem initModelBody_throw_page (env : Env) (p : Page) (e : Thrown) (q : Page)
    (h : initModelBody env p = Res.throw e q) :
    q = { p with
      loaderClasses := classRemove "hidden" p.loaderClasses
      statusText := "Analyzing model..." } := by
  unfold initModelBody at h
  cases hm : env.MODEL_BASE64 with
  | none =>
    simp only [hm] at h
    injection h with _ hq
    exact hq.symm
  | some b64 =>
    simp only [hm] at h
    cases hb : base64ToBuffer env b64 with
    | error e =>
      simp only [hb] at h
      injection h with _ hq
      exact hq.symm
    | ok buf =>
      simp only [hb] at h
      cases hc : env.create buf with
      | error e =>
        simp only [hc] at h
        injection h with _ hq
        exact hq.symm
      | ok s =>
        simp only [hc] at h
        cases h

/-- The literals of the concrete inputs. -/
theorem literalValue_examples :
    literalValue "1" = JSNum.fin 1 ∧ literalValue "3" = JSNum.fin 3 ∧
    literalValue "6" = JSNum.fin 6 ∧ literalValue "85000" = JSNum.fin 85000 ∧
    literalValue "2015" = JSNum.fin 2015 ∧ literalValue "2020" = JSNum.fin 2020 ∧
    literalValue "50000000" = JSNum.fin 50000000 ∧
    literalValue "1e308" = JSNum.fin (10 ^ 308) ∧ literalValue "abc" = JSNum.nan := by
  refine ⟨?_, ?_, ?_, ?_, ?_, ?_, ?_, ?_, by decide⟩ <;>
    (simp [literalValue, parseUnsigned, takeDigits, parseExponent, isJSWhitespace]
     try norm_num)

/-- Both roundings keep the numbers of the concrete inputs. -/
theorem rounding_examples (r : ℚ → JSNum) (hr : r = exactRational ∨ r = binary64) :
    r 1 = JSNum.fin 1 ∧ r 3 = JSNum.fin 3 ∧ r 6 = JSNum.fin 6 ∧ r 11 = JSNum.fin 11 ∧
    r 85000 = JSNum.fin 85000 ∧ r 2015 = JSNum.fin 2015 ∧ r 2020 = JSNum.fin 2020 ∧
    r 50000000 = JSNum.fin 50000000 := by
  rcases hr with h | h
  · subst h
    exact ⟨rfl, rfl, rfl, rfl, rfl, rfl, rfl, rfl⟩
  · subst h
    refine ⟨?_, ?_, ?_, ?_, ?_, ?_, ?_, ?_⟩ <;>
      exact binary64_of_mid _ (by norm_num) (by norm_num)

/-- The ordered vector of the f-150 example. -/
theorem f150_ordered (r : ℚ → JSNum) (hr : r = exactRational ∨ r = binary64) :
    orderedInputs r asciiLower f150Map f150Form =
      [JSVal.num (JSNum.fin 200), JSVal.num (JSNum.fin 3), JSVal.num (JSNum.fin 6),
       JSVal.num (JSNum.fin 1), JSVal.num (JSNum.fin 85000), JSVal.num (JSNum.fin 1),
       JSVal.num (JSNum.fin 1), JSVal.num (JSNum.fin 11)] := by
  have hm : modelName asciiLower f150Form = "f-150" := by decide
  obtain ⟨l1, l3, l6, l85, l2015, -, -, -, -⟩ := literalValue_examples
  obtain ⟨r1, r3, r6, r11, r85, r2015, -, -⟩ := rounding_examples r hr
  have hf : modelFreq f150Map "f-150" = JSVal.num (JSNum.fin 200) := by
    rw [modelFreq_of_lookup_some f150Map "f-150" 200 (by simp [f150Map, List.lookup])]
    norm_num
  have h11 : r (2026 - 2015) = JSNum.fin 11 := by
    rw [← r11]
    norm_num
  rw [orderedInputs_eq, hm, hf]
  simp only [f150Form, formOf]
  simp [parseFloat_of_literal r _ _ l1, parseFloat_of_literal r _ _ l3,
    parseFloat_of_literal r _ _ l6, parseFloat_of_literal r _ _ l85,
    parseFloat_of_literal r _ _ l2015, r1, r3, r6, r85, r2015, JSNum.gt, JSNum.sub, h11]
  norm_num

/-- The ordered vector of the f-150 example with condition abc. -/
theorem abc_ordered (r : ℚ → JSNum) (hr : r = exactRational ∨ r = binary64) :
    orderedInputs r asciiLower f150Map (formOf "f-150" "abc" "6" "1" "85000" "1" "1" "2015") =
      [JSVal.num (JSNum.fin 200), JSVal.num JSNum.nan, JSVal.num (JSNum.fin 6),
       JSVal.num (JSNum.fin 1), JSVal.num (JSNum.fin 85000), JSVal.num (JSNum.fin 1),
       JSVal.num (JSNum.fin 1), JSVal.num (JSNum.fin 11)] := by
  have hm : modelName asciiLower (formOf "f-150" "abc" "6" "1" "85000" "1" "1" "2015") =
      "f-150" := by decide
  obtain ⟨l1, -, l6, l85, l2015, -, -, -, labc⟩ := literalValue_examples
  obtain ⟨r1, -, r6, r11, r85, r2015, -, -⟩ := rounding_examples r hr
  have hf : modelFreq f150Map "f-150" = JSVal.num (JSNum.fin 200) := by
    rw [modelFreq_of_lookup_some f150Map "f-150" 200 (by simp [f150Map, List.lookup])]
    norm_num
  have h11 : r (2026 - 2015) = JSNum.fin 11 := by
    rw [← r11]
    norm_num
  rw [orderedInputs_eq, hm, hf]
  simp only [formOf]
  simp [parseFloat_of_literal r _ _ l1, parseFloat_of_nan r _ labc,
    parseFloat_of_literal r _ _ l6, parseFloat_of_literal r _ _ l85,
    parseFloat_of_literal r _ _ l2015, r1, r6, r85, r2015, JSNum.gt, JSNum.sub, h11]
  norm_num

/-- A key that the lookup finds is stored in the map with that score. -/
theorem mem_of_lookup (freqMap : FreqMap) (name : String) (v : ℚ)
    (h : freqMap.lookup name = some v) : (name, v) ∈ freqMap := by
  induction freqMap with
  | nil => simp [List.lookup] at h
  | cons e rest ih =>
    obtain ⟨k, w⟩ := e
    by_cases hk : name = k
    · subst hk
      simp [List.lookup] at h
      subst h
      exact List.mem_cons_self _ _
    · have hb : (name == k) = false := by simpa using hk
      simp only [List.lookup, hb] at h
      exact List.mem_cons_of_mem _ (ih h)

/-- The try block of the submit handler leaves the alerts as they were. -/
theorem submitBody_alerts (env : Env) (form : Form) (p : Page) (s : Session) :
    (submitBody env form s p).page.alerts = p.alerts := by
  unfold submitBody
  cases env.FREQ_MAP with
  | none => rfl
  | some freqMap =>
    simp only []
    cases s.run (scale env.round (orderedInputs env.round env.toLowerCase freqMap form)) <;>
      rfl

/-- One entry of the scaled vector under binary64 is finite when the raw
entry is of moderate size, the mean of the size of the table entries, and the
standard deviation at least a quarter. -/
theorem scaled_entry_finite (x m sd : ℚ) (hx : |x| ≤ 10 ^ 307 + 2026) (hm : |m| ≤ 200000)
    (hsd : 1 / 4 ≤ sd) :
    ∃ q : ℚ, JSNum.div binary64 (JSNum.sub binary64 (JSNum.fin x) (JSNum.fin m))
      (JSNum.fin sd) = JSNum.fin q := by
  have hxm : |x - m| ≤ 10 ^ 307 + 202026 := by
    have := abs_sub x m
    linarith
  obtain ⟨a, ha, hale⟩ := binary64_finite (x - m) (by linarith [show (10 : ℚ) ^ 307 + 202026 ≤ 10 ^ 308 by norm_num])
  have hsdpos : 0 < sd := by linarith
  have hne : sd ≠ 0 := ne_of_gt hsdpos
  have hdiv : |a / sd| ≤ 10 ^ 308 := by
    rw [abs_div, abs_of_pos hsdpos, div_le_iff₀ hsdpos]
    have h4 : (10 : ℚ) ^ 307 + 202026 ≤ 10 ^ 308 * (1 / 4) := by norm_num
    have h5 : (10 : ℚ) ^ 308 * (1 / 4) ≤ 10 ^ 308 * sd :=
      mul_le_mul_of_nonneg_left hsd (by norm_num)
    linarith
  obtain ⟨b, hb, -⟩ := binary64_finite (a / sd) hdiv
  refine ⟨b, ?_⟩
  simp only [JSNum.sub, ha, JSNum.div, hne, ne_eq, not_false_eq_true, if_true]
  exact hb

/-- The scaled vector of eight numbers, entry by entry. -/
theorem scale_of_nums (r : ℚ → JSNum) (x0 x1 x2 x3 x4 x5 x6 x7 : JSNum) :
    scale r [JSVal.num x0, JSVal.num x1, JSVal.num x2, JSVal.num x3, JSVal.num x4,
        JSVal.num x5, JSVal.num x6, JSVal.num x7] =
      [JSNum.div r (JSNum.sub r x0 (JSNum.fin 177.62431826259606))
         (JSNum.fin 283.53371191795486),
       JSNum.div r (JSNum.sub r x1 (JSNum.fin 2.7129042932604515))
         (JSNum.fin 0.7306282533024211),
       JSNum.div r (JSNum.sub r x2 (JSNum.fin 5.882453151618399))
         (JSNum.fin 1.6256224551274014),
       JSNum.div r (JSNum.sub r x3 (JSNum.fin 0.9710882060961112))
         (JSNum.fin 0.3256881776561781),
       JSNum.div r (JSNum.sub r x4 (JSNum.fin 121739.12073339625))
         (JSNum.fin 206713.83456102648),
       JSNum.div r (JSNum.sub r x5 (JSNum.fin 0.9238169941048865))
         (JSNum.fin 0.2652907000026549),
       JSNum.div r (JSNum.sub r x6 (JSNum.fin 1.057431397301239))
         (JSNum.fin 0.8860048265932386),
       JSNum.div r (JSNum.sub r x7 (JSNum.fin 17.380767958035616))
         (JSNum.fin 9.566076237447591)] := by
  simp only [scale, List.mapIdx_cons, List.mapIdx_nil, idx, SCALING_MEAN, SCALING_STD,
    JSVal.toNumber]
  rfl

/-- The clamp of a finite odometer of moderate size is finite and of moderate
size. -/
theorem clamp_bounded (x : JSNum) (h : ∃ q : ℚ, x = JSNum.fin q ∧ |q| ≤ 10 ^ 307) :
    ∃ q : ℚ, (if JSNum.gt x (JSNum.fin 10000000) then JSNum.fin 10000000 else x) =
      JSNum.fin q ∧ |q| ≤ 10 ^ 307 := by
  obtain ⟨q, rfl, hq⟩ := h
  by_cases hg : JSNum.gt (JSNum.fin q) (JSNum.fin 10000000) = true
  · refine ⟨10000000, by rw [if_pos hg], ?_⟩
    rw [abs_of_pos (by norm_num)]
    norm_num
  · exact ⟨q, by rw [if_neg hg], hq⟩

/-- The model frequency on a map of moderate scores, at a name that the read
does not find on `Object.prototype` alone, is a finite number of moderate
size. -/
theorem modelFreq_bounded (freqMap : FreqMap) (name : String)
    (hscore : ∀ e ∈ freqMap, |e.2| ≤ 10 ^ 307)
    (hname : readFreq freqMap name ≠ JSVal.object) :
    ∃ q : ℚ, modelFreq freqMap name = JSVal.num (JSNum.fin q) ∧ |q| ≤ 10 ^ 307 := by
  cases h : freqMap.lookup name with
  | some v =>
    rw [modelFreq_of_lookup_some freqMap name v h]
    have hmem := hscore (name, v) (mem_of_lookup freqMap name v h)
    by_cases hv : v = 0
    · refine ⟨1, ?_, ?_⟩
      · rw [if_neg (by simp [hv])]
      · rw [abs_one]
        norm_num
    · refine ⟨v, ?_, hmem⟩
      rw [if_pos hv]
  | none =>
    have hn : name ∉ objectPrototypeNames := by
      intro hmem
      apply hname
      simp [readFreq, h, hmem]
    refine ⟨1, modelFreq_of_lookup_none freqMap name h hn, ?_⟩
    rw [abs_one]
    norm_num

/-! ## The claims -/

/-- C1: on every submission with a session loaded and the frequency map
defined, the handler builds (and prints as Raw Values) one vector of exactly 8
entries in the order model frequency, condition, cylinders, fuel, clamped
odometer, transmission, drive, CarAge; on the f-150 example that vector is
[200, 3, 6, 1, 85000, 1, 1, 11], under exact numbers and under binary64. -/
theorem C1_ordered_vector :
    (∀ (env : Env) (form : Form) (p : Page) (s : Session) (freqMap : FreqMap),
      p.session = some s → env.FREQ_MAP = some freqMap →
      loggedRaw (onsubmit env form p).page = loggedRaw p ++
        [[modelFreq freqMap (modelName env.toLowerCase form),
          JSVal.num (parseFloat env.round (form "condition")),
          JSVal.num (parseFloat env.round (form "cylinders")),
          JSVal.num (parseFloat env.round (form "fuel")),
          JSVal.num (if JSNum.gt (parseFloat env.round (form "odometer"))
              (JSNum.fin 10000000) then
             JSNum.fin 10000000 else parseFloat env.round (form "odometer")),
          JSVal.num (parseFloat env.round (form "transmission")),
          JSVal.num (parseFloat env.round (form "drive")),
          JSVal.num (JSNum.sub env.round (JSNum.fin 2026)
            (parseFloat env.round (form "year")))]]) ∧
    (∀ (r : ℚ → JSNum) (lower : String → String) (freqMap : FreqMap) (form : Form),
      (orderedInputs r lower freqMap form).length = 8) ∧
    (∀ r : ℚ → JSNum, r = exactRational ∨ r = binary64 →
      orderedInputs r asciiLower [("f-150", 200)]
          (formOf "f-150" "3" "6" "1" "85000" "1" "1" "2015") =
        [JSVal.num (JSNum.fin 200), JSVal.num (JSNum.fin 3), JSVal.num (JSNum.fin 6),
         JSVal.num (JSNum.fin 1), JSVal.num (JSNum.fin 85000), JSVal.num (JSNum.fin 1),
         JSVal.num (JSNum.fin 1), JSVal.num (JSNum.fin 11)]) := by
  refine ⟨?_, ?_, f150_ordered⟩
  · intro env form p s freqMap hs hf
    rw [(submit_logs_and_runs env form p s freqMap hs hf).1, orderedInputs_eq]
  · intro r lower freqMap form
    rw [orderedInputs_eq]
    rfl

/-- C1, on the f-150 example: the handler prints exactly the vector
[200, 3, 6, 1, 85000, 1, 1, 11]. -/
theorem C1_ordered_vector_witness :
    (pageWith steadySession).session = some steadySession ∧
    fullEnv.FREQ_MAP = some f150Map ∧
    loggedRaw (onsubmit fullEnv f150Form (pageWith steadySession)).page =
      [[JSVal.num (JSNum.fin 200), JSVal.num (JSNum.fin 3), JSVal.num (JSNum.fin 6),
        JSVal.num (JSNum.fin 1), JSVal.num (JSNum.fin 85000), JSVal.num (JSNum.fin 1),
        JSVal.num (JSNum.fin 1), JSVal.num (JSNum.fin 11)]] := by
  refine ⟨rfl, rfl, ?_⟩
  have h := C1_ordered_vector.1 fullEnv f150Form (pageWith steadySession) steadySession
    f150Map rfl rfl
  rw [← orderedInputs_eq] at h
  have h2 : orderedInputs fullEnv.round fullEnv.toLowerCase f150Map f150Form = _ :=
    f150_ordered binary64 (Or.inr rfl)
  rw [h2] at h
  rw [h]
  rfl

/-- C2: for every vector and every position i in it, the scaled vector has at
i the value (raw[i] - SCALING_MEAN[i]) / SCALING_STD[i], its length is that of
the raw vector, and over exact rational arithmetic, on a finite entry at one
of the 8 positions of the tables, that value is the exact quotient
(x - mean) / std, neither clamped nor rounded. -/
theorem C2_scaled_entry (raw : List JSVal) (i : Nat) (hi : i < raw.length) :
    (∀ r : ℚ → JSNum, (scale r raw).length = raw.length) ∧
    (∀ r : ℚ → JSNum, (scale r raw)[i]? =
      some (JSNum.div r (JSNum.sub r (slot raw i) (idx SCALING_MEAN i))
        (idx SCALING_STD i))) ∧
    (∀ x m sd : ℚ, raw[i]? = some (JSVal.num (JSNum.fin x)) →
      SCALING_MEAN[i]? = some (JSNum.fin m) → SCALING_STD[i]? = some (JSNum.fin sd) →
      (scale exactRational raw)[i]? = some (JSNum.fin ((x - m) / sd))) := by
  have hget : ∀ r : ℚ → JSNum, (scale r raw)[i]? =
      some (JSNum.div r (JSNum.sub r (slot raw i) (idx SCALING_MEAN i))
        (idx SCALING_STD i)) := by
    intro r
    simp [scale, idx, slot, List.getElem?_eq_getElem hi]
  refine ⟨fun r => by simp [scale], hget, ?_⟩
  intro x m sd hx hm hsd
  have hne : sd ≠ 0 := by
    have h8 : i < 8 := by
      by_contra hge
      have : SCALING_STD[i]? = none := by
        simp [SCALING_STD] at hsd ⊢
        omega
      rw [this] at hsd
      cases hsd
    interval_cases i <;> simp [SCALING_STD] at hsd <;> rw [← hsd] <;> norm_num
  rw [hget]
  simp [idx, slot, hx, hm, hsd, JSNum.sub, JSNum.div, hne, exactRational, JSVal.toNumber]

/-- C2, on the f-150 example at position 7 (CarAge 11): the scaled value is
(11 - 17.380767958035616) / 9.566076237447591. -/
theorem C2_scaled_entry_witness :
    (scale exactRational (orderedInputs exactRational asciiLower f150Map f150Form))[7]? =
      some (JSNum.fin ((11 - 17.380767958035616) / 9.566076237447591)) := by
  have h := (C2_scaled_entry (orderedInputs exactRational asciiLower f150Map f150Form) 7
    (by rw [f150_ordered exactRational (Or.inl rfl)]; decide)).2.2 11 17.380767958035616
    9.566076237447591
    (by rw [f150_ordered exactRational (Or.inl rfl)]; rfl) (by rfl) (by rfl)
  exact h

/-- C3: the odometer entry (position 4) of the ordered vector is 10,000,000
when the parsed odometer is greater than 10,000,000 and the parsed odometer
itself otherwise, so it is never greater than 10,000,000; for a finite
reading x it is the smaller of x and 10,000,000, and an input of 50,000,000
gives 10,000,000. -/
theorem C3_odometer_clamp (r : ℚ → JSNum) (lower : String → String) (freqMap : FreqMap)
    (form : Form) :
    (orderedInputs r lower freqMap form)[4]? =
      some (JSVal.num (if JSNum.gt (parseFloat r (form "odometer")) (JSNum.fin 10000000) then
        JSNum.fin 10000000 else parseFloat r (form "odometer"))) ∧
    JSNum.gt (slot (orderedInputs r lower freqMap form) 4) (JSNum.fin 10000000) = false ∧
    (∀ x : ℚ, parseFloat r (form "odometer") = JSNum.fin x →
      (10000000 < x →
        (orderedInputs r lower freqMap form)[4]? = some (JSVal.num (JSNum.fin 10000000))) ∧
      (x ≤ 10000000 →
        (orderedInputs r lower freqMap form)[4]? = some (JSVal.num (JSNum.fin x)))) ∧
    (r = exactRational ∨ r = binary64 → form "odometer" = "50000000" →
      (orderedInputs r lower freqMap form)[4]? = some (JSVal.num (JSNum.fin 10000000))) := by
  have h4 : (orderedInputs r lower freqMap form)[4]? =
      some (JSVal.num (if JSNum.gt (parseFloat r (form "odometer")) (JSNum.fin 10000000) then
        JSNum.fin 10000000 else parseFloat r (form "odometer"))) := by
    rw [orderedInputs_eq]
    rfl
  refine ⟨h4, ?_, ?_, ?_⟩
  · simp only [slot, h4, Option.getD_some, JSVal.toNumber]
    by_cases h : JSNum.gt (parseFloat r (form "odometer")) (JSNum.fin 10000000) = true
    · rw [if_pos h]
      simp [JSNum.gt]
    · rw [if_neg h]
      simpa using h
  · intro x hx
    rw [h4, hx]
    constructor
    · intro hlt
      simp [JSNum.gt, hlt]
    · intro hle
      simp [JSNum.gt, not_lt.mpr hle]
  · intro hr h50
    have hp : parseFloat r "50000000" = JSNum.fin 50000000 := by
      rw [parseFloat_of_literal r _ _ literalValue_examples.2.2.2.2.2.2.1]
      exact (rounding_examples r hr).2.2.2.2.2.2.2
    rw [h4, h50, hp]
    simp [JSNum.gt]
    norm_num

/-- C3, on the f-150 submission with the odometer set to 50,000,000: the
odometer entry is 10,000,000. -/
theorem C3_odometer_clamp_witness :
    formOf "f-150" "3" "6" "1" "50000000" "1" "1" "2015" "odometer" = "50000000" ∧
    (orderedInputs binary64 asciiLower f150Map
      (formOf "f-150" "3" "6" "1" "50000000" "1" "1" "2015"))[4]? =
      some (JSVal.num (JSNum.fin 10000000)) :=
  ⟨by decide,
   (C3_odometer_clamp binary64 asciiLower f150Map
     (formOf "f-150" "3" "6" "1" "50000000" "1" "1" "2015")).2.2.2 (Or.inr rfl)
     (by decide)⟩

/-- C4: on a frequency map with positive scores the model entry (position 0)
is the map's value at the lowercased, trimmed model name when that name is a
key of the map, and 1 when it is no key of the map and no property of
`Object.prototype` (unknown-model-xyz is such a name); but at a name that is
no key of the map and is a property of `Object.prototype`, such as
constructor, the read finds the inherited member, the entry is that member
and not 1, and its scaled value is NaN. -/
theorem C4_model_entry (r : ℚ → JSNum) (lower : String → String) (freqMap : FreqMap)
    (form : Form) (hpos : PositiveScores freqMap) :
    (∀ v : ℚ, freqMap.lookup (trim (lower (form "model"))) = some v →
      (orderedInputs r lower freqMap form)[0]? = some (JSVal.num (JSNum.fin v))) ∧
    (freqMap.lookup (trim (lower (form "model"))) = none →
      trim (lower (form "model")) ∉ objectPrototypeNames →
      (orderedInputs r lower freqMap form)[0]? = some (JSVal.num (JSNum.fin 1))) ∧
    (form "model" = "unknown-model-xyz" → lower "unknown-model-xyz" = "unknown-model-xyz" →
      freqMap.lookup "unknown-model-xyz" = none →
      (orderedInputs r lower freqMap form)[0]? = some (JSVal.num (JSNum.fin 1))) ∧
    (freqMap.lookup (trim (lower (form "model"))) = none →
      trim (lower (form "model")) ∈ objectPrototypeNames →
      (orderedInputs r lower freqMap form)[0]? = some JSVal.object ∧
      (orderedInputs r lower freqMap form)[0]? ≠ some (JSVal.num (JSNum.fin 1)) ∧
      idx (scale r (orderedInputs r lower freqMap form)) 0 = JSNum.nan) := by
  have h0 : (orderedInputs r lower freqMap form)[0]? =
      some (modelFreq freqMap (trim (lower (form "model")))) := by
    rw [orderedInputs_eq]
    rfl
  have hlen : (orderedInputs r lower freqMap form).length = 8 := by
    rw [orderedInputs_eq]
    rfl
  refine ⟨?_, ?_, ?_, ?_⟩
  · intro v hv
    have hne : v ≠ 0 := ne_of_gt (hpos _ (mem_of_lookup freqMap _ v hv))
    rw [h0, modelFreq_of_lookup_some freqMap _ v hv, if_pos hne]
  · intro hv hn
    rw [h0, modelFreq_of_lookup_none freqMap _ hv hn]
  · intro hname hlow hv
    have hk : trim "unknown-model-xyz" = "unknown-model-xyz" := by decide
    have hn : "unknown-model-xyz" ∉ objectPrototypeNames := by decide
    rw [h0, hname, hlow, hk, modelFreq_of_lookup_none freqMap _ hv hn]
  · intro hv hn
    have hobj : (orderedInputs r lower freqMap form)[0]? = some JSVal.object := by
      rw [h0, modelFreq_of_inherited freqMap _ hv hn]
    refine ⟨hobj, ?_, ?_⟩
    · rw [hobj]
      simp
    · exact scale_nan r _ 0 (by rw [hlen]; decide) (by rw [slot, hobj]; rfl)

/-- C4, at the failing input: against the map of the f-150 example the model
name constructor, which the map does not hold, puts the inherited member in
position 0, not 1, and NaN in position 0 of the scaled vector. -/
theorem C4_model_entry_witness :
    PositiveScores f150Map ∧
    List.lookup (trim (asciiLower
      (formOf "constructor" "3" "6" "1" "85000" "1" "1" "2015" "model"))) f150Map = none ∧
    (orderedInputs binary64 asciiLower f150Map
      (formOf "constructor" "3" "6" "1" "85000" "1" "1" "2015"))[0]? = some JSVal.object ∧
    (orderedInputs binary64 asciiLower f150Map
      (formOf "constructor" "3" "6" "1" "85000" "1" "1" "2015"))[0]? ≠
      some (JSVal.num (JSNum.fin 1)) ∧
    idx (scale binary64 (orderedInputs binary64 asciiLower f150Map
      (formOf "constructor" "3" "6" "1" "85000" "1" "1" "2015"))) 0 = JSNum.nan := by
  have hpos : PositiveScores f150Map := by
    intro e he
    simp only [f150Map, List.mem_singleton] at he
    rw [he]
    norm_num
  have hk : trim (asciiLower
      (formOf "constructor" "3" "6" "1" "85000" "1" "1" "2015" "model")) = "constructor" := by
    decide
  have hl : List.lookup (trim (asciiLower
      (formOf "constructor" "3" "6" "1" "85000" "1" "1" "2015" "model"))) f150Map = none := by
    rw [hk]
    decide
  have hn : trim (asciiLower
      (formOf "constructor" "3" "6" "1" "85000" "1" "1" "2015" "model")) ∈
      objectPrototypeNames := by
    rw [hk]
    decide
  exact ⟨hpos, hl, (C4_model_entry binary64 asciiLower f150Map
    (formOf "constructor" "3" "6" "1" "85000" "1" "1" "2015") hpos).2.2.2 hl hn⟩

/-- C5: the last entry (position 7) of the ordered vector is 2026 minus the
parsed year; for a finite year y it is the number 2026 - y (as the rounding
gives it; exactly 2026 - y over exact arithmetic), and the year 2020 gives
6. -/
theorem C5_car_age (r : ℚ → JSNum) (lower : String → String) (freqMap : FreqMap)
    (form : Form) :
    (orderedInputs r lower freqMap form)[7]? =
      some (JSVal.num (JSNum.sub r (JSNum.fin 2026) (parseFloat r (form "year")))) ∧
    (orderedInputs r lower freqMap form).getLast? =
      some (JSVal.num (JSNum.sub r (JSNum.fin 2026) (parseFloat r (form "year")))) ∧
    (∀ y : ℚ, parseFloat r (form "year") = JSNum.fin y →
      (orderedInputs r lower freqMap form)[7]? = some (JSVal.num (r (2026 - y)))) ∧
    (∀ y : ℚ, parseFloat exactRational (form "year") = JSNum.fin y →
      (orderedInputs exactRational lower freqMap form)[7]? = some (JSVal.num (JSNum.fin (2026 - y)))) ∧
    (r = exactRational ∨ r = binary64 → form "year" = "2020" →
      (orderedInputs r lower freqMap form)[7]? = some (JSVal.num (JSNum.fin 6))) := by
  have h7 : ∀ r' : ℚ → JSNum, (orderedInputs r' lower freqMap form)[7]? =
      some (JSVal.num (JSNum.sub r' (JSNum.fin 2026) (parseFloat r' (form "year")))) := by
    intro r'
    rw [orderedInputs_eq]
    rfl
  refine ⟨h7 r, by rw [orderedInputs_eq]; rfl, ?_, ?_, ?_⟩
  · intro y hy
    rw [h7, hy]
    rfl
  · intro y hy
    rw [h7, hy]
    rfl
  · intro hr h2020
    have hp : parseFloat r "2020" = JSNum.fin 2020 := by
      rw [parseFloat_of_literal r _ _ literalValue_examples.2.2.2.2.2.1]
      exact (rounding_examples r hr).2.2.2.2.2.2.1
    have h6 : r (2026 - 2020) = JSNum.fin 6 := by
      have := (rounding_examples r hr).2.2.1
      rw [← this]
      norm_num
    rw [h7, h2020, hp]
    simp [JSNum.sub, h6]

/-- C5, on the f-150 submission with the year set to 2020: CarAge is 6. -/
theorem C5_car_age_witness :
    formOf "f-150" "3" "6" "1" "85000" "1" "1" "2020" "year" = "2020" ∧
    (orderedInputs binary64 asciiLower f150Map
      (formOf "f-150" "3" "6" "1" "85000" "1" "1" "2020"))[7]? =
      some (JSVal.num (JSNum.fin 6)) :=
  ⟨by decide,
   (C5_car_age binary64 asciiLower f150Map
     (formOf "f-150" "3" "6" "1" "85000" "1" "1" "2020")).2.2.2.2 (Or.inr rfl)
     (by decide)⟩

/-- C6 as stated fails: with condition = "abc" the handler raises no error;
it builds the vector with NaN at the condition position, hands the scaled
vector (NaN at the same position) to the engine, and shows no alert. -/
theorem C6_unparseable_counterexample :
    parseFloat binary64 "abc" = JSNum.nan ∧
    (onsubmit fullEnv (formOf "f-150" "abc" "6" "1" "85000" "1" "1" "2015")
      (pageWith steadySession)).threw = false ∧
    (onsubmit fullEnv (formOf "f-150" "abc" "6" "1" "85000" "1" "1" "2015")
      (pageWith steadySession)).page.alerts = [] ∧
    loggedRaw (onsubmit fullEnv (formOf "f-150" "abc" "6" "1" "85000" "1" "1" "2015")
      (pageWith steadySession)).page =
      [[JSVal.num (JSNum.fin 200), JSVal.num JSNum.nan, JSVal.num (JSNum.fin 6),
        JSVal.num (JSNum.fin 1), JSVal.num (JSNum.fin 85000), JSVal.num (JSNum.fin 1),
        JSVal.num (JSNum.fin 1), JSVal.num (JSNum.fin 11)]] ∧
    (onsubmit fullEnv (formOf "f-150" "abc" "6" "1" "85000" "1" "1" "2015")
      (pageWith steadySession)).page.runs =
      [scale binary64 [JSVal.num (JSNum.fin 200), JSVal.num JSNum.nan,
        JSVal.num (JSNum.fin 6), JSVal.num (JSNum.fin 1), JSVal.num (JSNum.fin 85000),
        JSVal.num (JSNum.fin 1), JSVal.num (JSNum.fin 1), JSVal.num (JSNum.fin 11)]] ∧
    idx (scale binary64 [JSVal.num (JSNum.fin 200), JSVal.num JSNum.nan,
      JSVal.num (JSNum.fin 6), JSVal.num (JSNum.fin 1), JSVal.num (JSNum.fin 85000),
      JSVal.num (JSNum.fin 1), JSVal.num (JSNum.fin 1), JSVal.num (JSNum.fin 11)]) 1 =
      JSNum.nan := by
  have hpage := submit_page_of_run_ok fullEnv
    (formOf "f-150" "abc" "6" "1" "85000" "1" "1" "2015") (pageWith steadySession)
    steadySession f150Map (JSNum.fin 15000) rfl rfl rfl
  have hlog := submit_logs_and_runs fullEnv
    (formOf "f-150" "abc" "6" "1" "85000" "1" "1" "2015") (pageWith steadySession)
    steadySession f150Map rfl rfl
  have habc : orderedInputs fullEnv.round fullEnv.toLowerCase f150Map
      (formOf "f-150" "abc" "6" "1" "85000" "1" "1" "2015") = _ :=
    abc_ordered binary64 (Or.inr rfl)
  rw [habc] at hlog
  refine ⟨parseFloat_of_nan _ _ literalValue_examples.2.2.2.2.2.2.2.2, ?_, ?_, ?_, ?_, ?_⟩
  · rw [hpage]
    rfl
  · rw [hpage]
    rfl
  · rw [hlog.1]
    rfl
  · rw [hlog.2.2]
    rfl
  · exact scale_nan _ _ 1 (by decide) rfl

/-- C6, amended: when a numeric field does not parse, feature preparation
does not fail: for any submission with a session loaded and the frequency map
defined the handler builds the 8-entry vector and hands its scaled form to the
inference engine; a field that parses to NaN puts NaN at its position of the
ordered vector (for year, at the CarAge position) and of the scaled vector;
the handler itself throws only when the engine rejected with null or
undefined; and when the engine answers, no alert is shown. -/
theorem C6_nan_passes_through (env : Env) (form : Form) (p : Page) (s : Session)
    (freqMap : FreqMap) (hs : p.session = some s) (hf : env.FREQ_MAP = some freqMap) :
    ((onsubmit env form p).threw = true ↔
      s.run (scale env.round (orderedInputs env.round env.toLowerCase freqMap form)) =
        Except.error Thrown.nullish) ∧
    (orderedInputs env.round env.toLowerCase freqMap form).length = 8 ∧
    loggedRaw (onsubmit env form p).page =
      loggedRaw p ++ [orderedInputs env.round env.toLowerCase freqMap form] ∧
    (onsubmit env form p).page.runs =
      p.runs ++ [scale env.round (orderedInputs env.round env.toLowerCase freqMap form)] ∧
    (parseFloat env.round (form "condition") = JSNum.nan →
      (orderedInputs env.round env.toLowerCase freqMap form)[1]? =
        some (JSVal.num JSNum.nan) ∧
      idx (scale env.round (orderedInputs env.round env.toLowerCase freqMap form)) 1 =
        JSNum.nan) ∧
    (parseFloat env.round (form "cylinders") = JSNum.nan →
      (orderedInputs env.round env.toLowerCase freqMap form)[2]? =
        some (JSVal.num JSNum.nan) ∧
      idx (scale env.round (orderedInputs env.round env.toLowerCase freqMap form)) 2 =
        JSNum.nan) ∧
    (parseFloat env.round (form "fuel") = JSNum.nan →
      (orderedInputs env.round env.toLowerCase freqMap form)[3]? =
        some (JSVal.num JSNum.nan) ∧
      idx (scale env.round (orderedInputs env.round env.toLowerCase freqMap form)) 3 =
        JSNum.nan) ∧
    (parseFloat env.round (form "odometer") = JSNum.nan →
      (orderedInputs env.round env.toLowerCase freqMap form)[4]? =
        some (JSVal.num JSNum.nan) ∧
      idx (scale env.round (orderedInputs env.round env.toLowerCase freqMap form)) 4 =
        JSNum.nan) ∧
    (parseFloat env.round (form "transmission") = JSNum.nan →
      (orderedInputs env.round env.toLowerCase freqMap form)[5]? =
        some (JSVal.num JSNum.nan) ∧
      idx (scale env.round (orderedInputs env.round env.toLowerCase freqMap form)) 5 =
        JSNum.nan) ∧
    (parseFloat env.round (form "drive") = JSNum.nan →
      (orderedInputs env.round env.toLowerCase freqMap form)[6]? =
        some (JSVal.num JSNum.nan) ∧
      idx (scale env.round (orderedInputs env.round env.toLowerCase freqMap form)) 6 =
        JSNum.nan) ∧
    (parseFloat env.round (form "year") = JSNum.nan →
      (orderedInputs env.round env.toLowerCase freqMap form)[7]? =
        some (JSVal.num JSNum.nan) ∧
      idx (scale env.round (orderedInputs env.round env.toLowerCase freqMap form)) 7 =
        JSNum.nan) ∧
    (∀ output : JSNum,
      s.run (scale env.round (orderedInputs env.round env.toLowerCase freqMap form)) =
        Except.ok output →
      (onsubmit env form p).page.alerts = p.alerts) := by
  have hlen : (orderedInputs env.round env.toLowerCase freqMap form).length = 8 := by
    rw [orderedInputs_eq]
    rfl
  have hlog := submit_logs_and_runs env form p s freqMap hs hf
  have hsc : ∀ k, k < 8 →
      (orderedInputs env.round env.toLowerCase freqMap form)[k]? =
        some (JSVal.num JSNum.nan) →
      (orderedInputs env.round env.toLowerCase freqMap form)[k]? =
        some (JSVal.num JSNum.nan) ∧
      idx (scale env.round (orderedInputs env.round env.toLowerCase freqMap form)) k =
        JSNum.nan :=
    fun k hk h => ⟨h, scale_nan _ _ k (by rw [hlen]; exact hk) (by rw [slot, h]; rfl)⟩
  refine ⟨?_, hlen, hlog.1, hlog.2.2, ?_, ?_, ?_, ?_, ?_, ?_, ?_, ?_⟩
  · rw [onsubmit_threw_iff env form p s hs]
    constructor
    · rintro ⟨q, hq⟩
      exact submitBody_nullish env form p s freqMap hf q hq
    · intro hr
      simp [submitBody, hf, hr]
  · intro h
    exact hsc 1 (by decide) (by rw [orderedInputs_eq, h]; rfl)
  · intro h
    exact hsc 2 (by decide) (by rw [orderedInputs_eq, h]; rfl)
  · intro h
    exact hsc 3 (by decide) (by rw [orderedInputs_eq, h]; rfl)
  · intro h
    exact hsc 4 (by decide) (by rw [orderedInputs_eq, h]; rfl)
  · intro h
    exact hsc 5 (by decide) (by rw [orderedInputs_eq, h]; rfl)
  · intro h
    exact hsc 6 (by decide) (by rw [orderedInputs_eq, h]; rfl)
  · intro h
    exact hsc 7 (by decide) (by rw [orderedInputs_eq, h]; rfl)
  · intro output hr
    rw [submit_page_of_run_ok env form p s freqMap output hs hf hr]
    rfl

/-- C6, amended, on the submission with condition = "abc": NaN sits at
position 1 of the ordered and of the scaled vector. -/
theorem C6_nan_passes_through_witness :
    parseFloat binary64 (formOf "f-150" "abc" "6" "1" "85000" "1" "1" "2015" "condition") =
      JSNum.nan ∧
    (orderedInputs binary64 asciiLower f150Map
      (formOf "f-150" "abc" "6" "1" "85000" "1" "1" "2015"))[1]? =
      some (JSVal.num JSNum.nan) ∧
    idx (scale binary64 (orderedInputs binary64 asciiLower f150Map
      (formOf "f-150" "abc" "6" "1" "85000" "1" "1" "2015"))) 1 = JSNum.nan := by
  have hp : parseFloat binary64
      (formOf "f-150" "abc" "6" "1" "85000" "1" "1" "2015" "condition") = JSNum.nan :=
    parseFloat_of_nan _ _ literalValue_examples.2.2.2.2.2.2.2.2
  exact ⟨hp, (C6_nan_passes_through fullEnv
    (formOf "f-150" "abc" "6" "1" "85000" "1" "1" "2015") (pageWith steadySession)
    steadySession f150Map rfl rfl).2.2.2.2.1 hp⟩

/-- C7 as stated fails: on the f-150 submission with fuel = "1e308" every
numeric field parses to a finite number, yet under binary64 the scaled fuel
entry (position 3) is Infinity. -/
theorem C7_overflow_counterexample :
    (∀ id ∈ ["condition", "cylinders", "fuel", "odometer", "transmission", "drive", "year"],
      (parseFloat binary64
        (formOf "f-150" "3" "6" "1e308" "85000" "1" "1" "2015" id)).isFinite = true) ∧
    parseFloat binary64 (formOf "f-150" "3" "6" "1e308" "85000" "1" "1" "2015" "fuel") =
      JSNum.fin (10 ^ 308) ∧
    (scaledInputs binary64 asciiLower f150Map
      (formOf "f-150" "3" "6" "1e308" "85000" "1" "1" "2015"))[3]? = some JSNum.posInf ∧
    JSNum.posInf.isFinite = false := by
  obtain ⟨l1, l3, l6, l85, l2015, -, -, l308, -⟩ := literalValue_examples
  obtain ⟨r1, r3, r6, -, r85, r2015, -, -⟩ := rounding_examples binary64 (Or.inr rfl)
  have r308 : binary64 (10 ^ 308) = JSNum.fin (10 ^ 308) :=
    binary64_of_mid _ (by norm_num) (by norm_num)
  have hfuel : parseFloat binary64 "1e308" = JSNum.fin (10 ^ 308) := by
    rw [parseFloat_of_literal binary64 _ _ l308, r308]
  refine ⟨?_, hfuel, ?_, rfl⟩
  · intro id hid
    simp only [List.mem_cons, List.mem_singleton, List.not_mem_nil, or_false] at hid
    rcases hid with h | h | h | h | h | h | h <;> subst h <;> simp only [formOf] <;>
      simp [hfuel, parseFloat_of_literal binary64 _ _ l1, parseFloat_of_literal binary64 _ _ l3,
        parseFloat_of_literal binary64 _ _ l6, parseFloat_of_literal binary64 _ _ l85,
        parseFloat_of_literal binary64 _ _ l2015, r1, r3, r6, r85, r2015, JSNum.isFinite]
  · have h3 : (orderedInputs binary64 asciiLower f150Map
        (formOf "f-150" "3" "6" "1e308" "85000" "1" "1" "2015"))[3]? =
        some (JSVal.num (JSNum.fin (10 ^ 308))) := by
      rw [orderedInputs_eq]
      simp only [formOf]
      simp [hfuel]
    have hlen : (orderedInputs binary64 asciiLower f150Map
        (formOf "f-150" "3" "6" "1e308" "85000" "1" "1" "2015")).length = 8 := by
      rw [orderedInputs_eq]
      rfl
    have hs := idx_scale binary64 _ 3 (by rw [hlen]; decide)
    have hsub : binary64 (10 ^ 308 - 0.9710882060961112) =
        JSNum.fin (10 ^ 308 - 0.9710882060961112) :=
      binary64_of_mid _ (by rw [abs_of_pos (by norm_num)]; norm_num)
        (by rw [abs_of_pos (by norm_num)]; norm_num)
    have hdiv : binary64 ((10 ^ 308 - 0.9710882060961112) / 0.3256881776561781) =
        JSNum.posInf := by
      unfold binary64 overflowBound
      norm_num
    have hval : idx (scale binary64 (orderedInputs binary64 asciiLower f150Map
        (formOf "f-150" "3" "6" "1e308" "85000" "1" "1" "2015"))) 3 = JSNum.posInf := by
      rw [hs, slot, h3]
      simp only [Option.getD_some, JSVal.toNumber, idx, SCALING_MEAN, SCALING_STD]
      simp only [List.getElem?_cons_succ, List.getElem?_cons_zero, Option.getD_some,
        JSNum.sub, hsub, JSNum.div]
      rw [if_pos (by norm_num)]
      exact hdiv
    have hlen2 : 3 < (scaledInputs binary64 asciiLower f150Map
        (formOf "f-150" "3" "6" "1e308" "85000" "1" "1" "2015")).length := by
      simp [scaledInputs, scale, hlen]
    rw [idx, scaledInputs.eq_1] at *
    rw [List.getElem?_eq_getElem (by simpa [scaledInputs] using hlen2)] at hval ⊢
    simpa using hval

/-- C7, amended: under binary64, when the seven numeric fields parse to finite
numbers of magnitude at most 10^307, the scores of the frequency map are of
magnitude at most 10^307, and the read of the model name does not find a
member of `Object.prototype`, then the two tables have 8 entries each, every
standard deviation is a non-zero finite number, every position of the ordered
vector has its entry in both tables, the ordered vector has exactly 8 entries,
all finite numbers, the scaled vector has exactly 8 entries, all finite, each
the value (raw[i] - SCALING_MEAN[i]) / SCALING_STD[i], and the handler
(session loaded, frequency map defined) gets as far as handing the scaled
vector to the inference engine. -/
theorem C7_prepare_finite (lower : String → String) (freqMap : FreqMap) (form : Form)
    (hscore : ∀ e ∈ freqMap, |e.2| ≤ 10 ^ 307)
    (hname : readFreq freqMap (modelName lower form) ≠ JSVal.object)
    (hcond : ∃ q : ℚ, parseFloat binary64 (form "condition") = JSNum.fin q ∧ |q| ≤ 10 ^ 307)
    (hcyl : ∃ q : ℚ, parseFloat binary64 (form "cylinders") = JSNum.fin q ∧ |q| ≤ 10 ^ 307)
    (hfuel : ∃ q : ℚ, parseFloat binary64 (form "fuel") = JSNum.fin q ∧ |q| ≤ 10 ^ 307)
    (hodo : ∃ q : ℚ, parseFloat binary64 (form "odometer") = JSNum.fin q ∧ |q| ≤ 10 ^ 307)
    (htrans : ∃ q : ℚ,
      parseFloat binary64 (form "transmission") = JSNum.fin q ∧ |q| ≤ 10 ^ 307)
    (hdrive : ∃ q : ℚ, parseFloat binary64 (form "drive") = JSNum.fin q ∧ |q| ≤ 10 ^ 307)
    (hyear : ∃ q : ℚ, parseFloat binary64 (form "year") = JSNum.fin q ∧ |q| ≤ 10 ^ 307) :
    SCALING_MEAN.length = 8 ∧ SCALING_STD.length = 8 ∧
    (∀ sd ∈ SCALING_STD, ∃ q : ℚ, q ≠ 0 ∧ sd = JSNum.fin q) ∧
    (∀ i, i < (orderedInputs binary64 lower freqMap form).length →
      ∃ m sd : ℚ, SCALING_MEAN[i]? = some (JSNum.fin m) ∧
        SCALING_STD[i]? = some (JSNum.fin sd) ∧ sd ≠ 0) ∧
    (orderedInputs binary64 lower freqMap form).length = 8 ∧
    (∀ v ∈ orderedInputs binary64 lower freqMap form, ∃ q : ℚ, v = JSVal.num (JSNum.fin q)) ∧
    (scaledInputs binary64 lower freqMap form).length = 8 ∧
    (∀ x ∈ scaledInputs binary64 lower freqMap form, x.isFinite = true) ∧
    (∀ i, i < 8 → (scaledInputs binary64 lower freqMap form)[i]? =
      some (JSNum.div binary64
        (JSNum.sub binary64 (slot (orderedInputs binary64 lower freqMap form) i)
          (idx SCALING_MEAN i)) (idx SCALING_STD i))) ∧
    (∀ (env : Env) (p : Page) (s : Session), env.round = binary64 →
      env.toLowerCase = lower → p.session = some s → env.FREQ_MAP = some freqMap →
      (onsubmit env form p).page.runs =
        p.runs ++ [scaledInputs binary64 lower freqMap form]) := by
  have hstd : ∀ sd ∈ SCALING_STD, ∃ q : ℚ, q ≠ 0 ∧ sd = JSNum.fin q := by
    intro sd hsd
    simp only [SCALING_STD, List.mem_cons, List.mem_singleton, List.not_mem_nil,
      or_false] at hsd
    rcases hsd with h | h | h | h | h | h | h | h <;>
      exact ⟨_, by norm_num, h⟩
  have hlen : (orderedInputs binary64 lower freqMap form).length = 8 := by
    rw [orderedInputs_eq]
    rfl
  have htab : ∀ i, i < (orderedInputs binary64 lower freqMap form).length →
      ∃ m sd : ℚ, SCALING_MEAN[i]? = some (JSNum.fin m) ∧
        SCALING_STD[i]? = some (JSNum.fin sd) ∧ sd ≠ 0 := by
    intro i hi
    rw [hlen] at hi
    interval_cases i <;>
      exact ⟨_, _, rfl, rfl, by norm_num⟩
  have hbig : (10 : ℚ) ^ 307 ≤ 10 ^ 307 + 2026 := by norm_num
  obtain ⟨q0, h0, b0⟩ := modelFreq_bounded freqMap (modelName lower form) hscore hname
  obtain ⟨q1, h1, b1⟩ := hcond
  obtain ⟨q2, h2, b2⟩ := hcyl
  obtain ⟨q3, h3, b3⟩ := hfuel
  obtain ⟨q4, h4, b4⟩ := clamp_bounded _ hodo
  obtain ⟨q5, h5, b5⟩ := htrans
  obtain ⟨q6, h6, b6⟩ := hdrive
  obtain ⟨y, hy, by7⟩ := hyear
  have hy2 : |2026 - y| ≤ 10 ^ 307 + 2026 := by
    have h := abs_sub (2026 : ℚ) y
    have h2026 : |(2026 : ℚ)| = 2026 := abs_of_pos (by norm_num)
    linarith
  obtain ⟨q7, h7, b7⟩ := binary64_finite (2026 - y)
    (by linarith [show (10 : ℚ) ^ 307 + 2026 ≤ 10 ^ 308 by norm_num])
  have b7' : |q7| ≤ 10 ^ 307 + 2026 := le_trans b7 hy2
  have hord : orderedInputs binary64 lower freqMap form =
      [JSVal.num (JSNum.fin q0), JSVal.num (JSNum.fin q1), JSVal.num (JSNum.fin q2),
       JSVal.num (JSNum.fin q3), JSVal.num (JSNum.fin q4), JSVal.num (JSNum.fin q5),
       JSVal.num (JSNum.fin q6), JSVal.num (JSNum.fin q7)] := by
    rw [orderedInputs_eq, h0, h1, h2, h3, h4, h5, h6, hy]
    simp only [JSNum.sub, h7]
  have hslen : (scaledInputs binary64 lower freqMap form).length = 8 := by
    simp [scaledInputs, scale, hlen]
  refine ⟨rfl, rfl, hstd, htab, hlen, ?_, hslen, ?_, ?_, ?_⟩
  · intro v hv
    rw [hord] at hv
    simp only [List.mem_cons, List.mem_singleton, List.not_mem_nil, or_false] at hv
    rcases hv with h | h | h | h | h | h | h | h <;> exact ⟨_, h⟩
  · intro x hx
    rw [scaledInputs, hord, scale_of_nums] at hx
    simp only [List.mem_cons, List.mem_singleton, List.not_mem_nil, or_false] at hx
    have hfin : ∀ (a m sd : ℚ), |a| ≤ 10 ^ 307 + 2026 → |m| ≤ 200000 → 1 / 4 ≤ sd →
        x = JSNum.div binary64 (JSNum.sub binary64 (JSNum.fin a) (JSNum.fin m))
          (JSNum.fin sd) → x.isFinite = true := by
      intro a m sd ha hm hsd hxe
      obtain ⟨q, hq⟩ := scaled_entry_finite a m sd ha hm hsd
      rw [hxe, hq]
      rfl
    rcases hx with h | h | h | h | h | h | h | h
    · exact hfin _ _ _ (le_trans b0 hbig) (by rw [abs_of_pos (by norm_num)]; norm_num)
        (by norm_num) h
    · exact hfin _ _ _ (le_trans b1 hbig) (by rw [abs_of_pos (by norm_num)]; norm_num)
        (by norm_num) h
    · exact hfin _ _ _ (le_trans b2 hbig) (by rw [abs_of_pos (by norm_num)]; norm_num)
        (by norm_num) h
    · exact hfin _ _ _ (le_trans b3 hbig) (by rw [abs_of_pos (by norm_num)]; norm_num)
        (by norm_num) h
    · exact hfin _ _ _ (le_trans b4 hbig) (by rw [abs_of_pos (by norm_num)]; norm_num)
        (by norm_num) h
    · exact hfin _ _ _ (le_trans b5 hbig) (by rw [abs_of_pos (by norm_num)]; norm_num)
        (by norm_num) h
    · exact hfin _ _ _ (le_trans b6 hbig) (by rw [abs_of_pos (by norm_num)]; norm_num)
        (by norm_num) h
    · exact hfin _ _ _ b7' (by rw [abs_of_pos (by norm_num)]; norm_num) (by norm_num) h
  · intro i hi
    have hi2 : i < (orderedInputs binary64 lower freqMap form).length := by
      rw [hlen]
      exact hi
    simp [scaledInputs, scale, idx, slot, List.getElem?_eq_getElem hi2]
  · intro env p s hr hl hs hf
    have h := (submit_logs_and_runs env form p s freqMap hs hf).2.2
    rw [hr, hl] at h
    exact h

/-- C7, amended, on the f-150 example: the scaled vector has 8 entries, all
finite, and the handler hands it to the engine. -/
theorem C7_prepare_finite_witness :
    (scaledInputs binary64 asciiLower f150Map f150Form).length = 8 ∧
    (∀ x ∈ scaledInputs binary64 asciiLower f150Map f150Form, x.isFinite = true) ∧
    (onsubmit fullEnv f150Form (pageWith steadySession)).page.runs =
      [scaledInputs binary64 asciiLower f150Map f150Form] := by
  obtain ⟨l1, l3, l6, l85, l2015, -, -, -, -⟩ := literalValue_examples
  obtain ⟨r1, r3, r6, -, r85, r2015, -, -⟩ := rounding_examples binary64 (Or.inr rfl)
  have hscore : ∀ e ∈ f150Map, |e.2| ≤ 10 ^ 307 := by
    intro e he
    simp only [f150Map, List.mem_singleton] at he
    rw [he]
    simp only []
    rw [abs_of_pos (by norm_num)]
    norm_num
  have hname : readFreq f150Map (modelName asciiLower f150Form) ≠ JSVal.object := by
    have hm : modelName asciiLower f150Form = "f-150" := by decide
    rw [hm]
    simp [readFreq, f150Map, List.lookup]
  have hb : ∀ (s : String) (q : ℚ), literalValue s = JSNum.fin q → binary64 q = JSNum.fin q →
      0 < q → q ≤ 10 ^ 307 →
      ∃ q' : ℚ, parseFloat binary64 s = JSNum.fin q' ∧ |q'| ≤ 10 ^ 307 := by
    intro s q hl hr hpos hle
    exact ⟨q, by rw [parseFloat_of_literal binary64 s q hl, hr], by rw [abs_of_pos hpos]; exact hle⟩
  have h := C7_prepare_finite asciiLower f150Map f150Form hscore hname
    (hb "3" 3 l3 r3 (by norm_num) (by norm_num))
    (hb "6" 6 l6 r6 (by norm_num) (by norm_num))
    (hb "1" 1 l1 r1 (by norm_num) (by norm_num))
    (hb "85000" 85000 l85 r85 (by norm_num) (by norm_num))
    (hb "1" 1 l1 r1 (by norm_num) (by norm_num))
    (hb "1" 1 l1 r1 (by norm_num) (by norm_num))
    (hb "2015" 2015 l2015 r2015 (by norm_num) (by norm_num))
  exact ⟨h.2.2.2.2.2.2.1, h.2.2.2.2.2.2.2.1,
    h.2.2.2.2.2.2.2.2.2 fullEnv (pageWith steadySession) steadySession rfl rfl rfl rfl⟩

/-- C8: on every submission made with a session loaded the finally block
leaves the run button enabled and labelled Predict Price, whether the try
block succeeded or threw; when the try block threw a value other than null
and undefined, with message m (in particular when the engine rejected the
vector with it), the handler returns and the alert "Prediction failed. System
reported: m" has been shown; but when the try block threw null or undefined
(the engine rejected with it), the catch block itself throws on reading
`err.message`: no alert is shown and the handler throws. -/
theorem C8_failure_reenables (env : Env) (form : Form) (p : Page) (s : Session)
    (hs : p.session = some s) :
    (onsubmit env form p).page.runDisabled = false ∧
    (onsubmit env form p).page.runText = "Predict Price" ∧
    (∀ (m : String) (q : Page), submitBody env form s p = Res.throw (Thrown.error m) q →
      (onsubmit env form p).threw = false ∧
      (onsubmit env form p).page.alerts =
        p.alerts ++ ["Prediction failed. System reported: " ++ m]) ∧
    (∀ q : Page, submitBody env form s p = Res.ok () q →
      (onsubmit env form p).threw = false ∧
      (onsubmit env form p).page.alerts = p.alerts) ∧
    (∀ q : Page, submitBody env form s p = Res.throw Thrown.nullish q →
      (onsubmit env form p).threw = true ∧
      (onsubmit env form p).page.alerts = p.alerts) ∧
    (∀ (freqMap : FreqMap) (e : Thrown), env.FREQ_MAP = some freqMap →
      s.run (scale env.round (orderedInputs env.round env.toLowerCase freqMap form)) =
        Except.error e →
      submitBody env form s p =
        Res.throw e { p with
          runDisabled := true
          runText := "Calculating..."
          console := p.console ++
            [LogEntry.inferenceStart,
             LogEntry.rawValues (orderedInputs env.round env.toLowerCase freqMap form),
             LogEntry.scaledValues
               (scale env.round (orderedInputs env.round env.toLowerCase freqMap form))]
          runs := p.runs ++
            [scale env.round (orderedInputs env.round env.toLowerCase freqMap form)] }) := by
  have halerts := submitBody_alerts env form p s
  refine ⟨?_, ?_, ?_, ?_, ?_, ?_⟩
  · simp only [onsubmit, hs, tryCatchFinally, tryCatch]
    cases submitBody env form s p with
    | ok a q => rfl
    | throw e q => cases e <;> rfl
  · simp only [onsubmit, hs, tryCatchFinally, tryCatch]
    cases submitBody env form s p with
    | ok a q => rfl
    | throw e q => cases e <;> rfl
  · intro m q hq
    rw [hq] at halerts
    simp only [onsubmit, hs, tryCatchFinally, tryCatch, hq]
    simp only [Res.page] at halerts
    simp [submitCatch, submitFinally, Res.page, Res.threw, halerts]
  · intro q hq
    rw [hq] at halerts
    simp only [onsubmit, hs, tryCatchFinally, tryCatch, hq]
    simp only [Res.page] at halerts
    simp [submitFinally, Res.page, Res.threw, halerts]
  · intro q hq
    rw [hq] at halerts
    simp only [onsubmit, hs, tryCatchFinally, tryCatch, hq]
    simp only [Res.page] at halerts
    simp [submitCatch, submitFinally, Res.page, Res.threw, halerts]
  · intro freqMap e hf hr
    simp [submitBody, hf, hr]

/-- C8, at the failing input: on the f-150 submission against an engine that
rejects with null the handler throws and shows no alert; the button is
enabled again. -/
theorem C8_failure_reenables_witness :
    (pageWith nullRejectingSession).session = some nullRejectingSession ∧
    (onsubmit fullEnv f150Form (pageWith nullRejectingSession)).threw = true ∧
    (onsubmit fullEnv f150Form (pageWith nullRejectingSession)).page.alerts = [] ∧
    (onsubmit fullEnv f150Form (pageWith nullRejectingSession)).page.runDisabled = false ∧
    (onsubmit fullEnv f150Form (pageWith nullRejectingSession)).page.runText =
      "Predict Price" := by
  have h := C8_failure_reenables fullEnv f150Form (pageWith nullRejectingSession)
    nullRejectingSession rfl
  have hb := h.2.2.2.2.2 f150Map Thrown.nullish rfl rfl
  have hn := h.2.2.2.2.1 _ hb
  exact ⟨rfl, hn.1, hn.2, h.1, h.2.1⟩

/-- C9 as stated fails: with the frequency map missing and the model blob
there, `initModel` ends on the status Model Ready with a session stored and
the run button enabled. -/
theorem C9_missing_freq_map_counterexample :
    noFreqEnv.FREQ_MAP = none ∧
    (initModel noFreqEnv freshPage).page.statusText = "Model Ready" ∧
    (initModel noFreqEnv freshPage).page.statusText ≠ "System Error" ∧
    (initModel noFreqEnv freshPage).page.runDisabled = false ∧
    (initModel noFreqEnv freshPage).page.session.isSome = true := by
  refine ⟨rfl, rfl, ?_, rfl, rfl⟩
  have h : (initModel noFreqEnv freshPage).page.statusText = "Model Ready" := rfl
  rw [h]
  decide

/-- C9, amended: a missing model blob makes the try block of `initModel`
throw; whenever that block throws (blob missing, undecodable, or refused by
the engine) on a page without a session, `initModel` ends on the status
System Error with the class error, stores no session, leaves the run button
as it was (it does not enable it), and every later submit leaves the page as
it is: no vector is built and no inference runs.  A missing frequency map is
not looked at by `initModel`: once the blob loads the status is Model Ready
and the button is enabled; each submit then throws before any vector is
built, shows the failure alert, runs no inference, and enables the button
again. -/
theorem C9_missing_static_data (env : Env) (p : Page) :
    (env.MODEL_BASE64 = none → (initModelBody env p).threw = true) ∧
    ((initModelBody env p).threw = true → p.session = none →
      (initModel env p).threw = false ∧
      (initModel env p).page.statusText = "System Error" ∧
      "error" ∈ (initModel env p).page.statusClasses ∧
      (initModel env p).page.session = none ∧
      (initModel env p).page.runDisabled = p.runDisabled ∧
      (initModel env p).page.runs = p.runs ∧
      ∀ forms : List Form,
        submitAll env forms (initModel env p).page = (initModel env p).page) ∧
    (∀ (b64 : String) (modelBuffer : List Nat) (s : Session),
      env.MODEL_BASE64 = some b64 → base64ToBuffer env b64 = Except.ok modelBuffer →
      env.create modelBuffer = Except.ok s →
      (initModel env p).page.statusText = "Model Ready" ∧
      (initModel env p).page.session = some s ∧
      (initModel env p).page.runDisabled = false) ∧
    (∀ (form : Form) (s : Session), env.FREQ_MAP = none → p.session = some s →
      (onsubmit env form p).threw = false ∧
      loggedRaw (onsubmit env form p).page = loggedRaw p ∧
      loggedScaled (onsubmit env form p).page = loggedScaled p ∧
      (onsubmit env form p).page.runs = p.runs ∧
      (onsubmit env form p).page.alerts =
        p.alerts ++ ["Prediction failed. System reported: FREQ_MAP is not defined"] ∧
      (onsubmit env form p).page.runDisabled = false) := by
  refine ⟨?_, ?_, ?_, ?_⟩
  · intro hm
    simp [initModelBody, hm, Res.threw]
  · intro hthrow hs
    cases hb : initModelBody env p with
    | ok a q =>
      rw [hb] at hthrow
      cases hthrow
    | throw e q =>
      have hq := initModelBody_throw_page env p e q hb
      have hi := initModel_of_body_throw env p e q hb
      have hsess : (initModel env p).page.session = none := by
        rw [hi, hq]
        exact hs
      refine ⟨by rw [hi]; rfl, by rw [hi]; rfl, ?_, hsess, by rw [hi, hq]; rfl,
        by rw [hi, hq]; rfl, ?_⟩
      · rw [hi]
        exact mem_classAdd "error" _
      · intro forms
        exact submitAll_of_no_session env forms _ hsess
  · intro b64 modelBuffer s hm hb hc
    simp [initModel, tryCatch, initModelBody, hm, hb, hc, Res.page]
  · intro form s hf hs
    rw [submit_page_of_no_freq_map env form p s hs hf]
    simp [Res.threw, Res.page, loggedRaw, loggedScaled, List.filterMap_append]

/-- C9, amended, on a page load without `MODEL_BASE64`: System Error, the
button still disabled, and two submits change nothing. -/
theorem C9_missing_static_data_witness :
    noModelEnv.MODEL_BASE64 = none ∧ freshPage.session = none ∧
    (initModel noModelEnv freshPage).page.statusText = "System Error" ∧
    (initModel noModelEnv freshPage).page.runDisabled = true ∧
    submitAll noModelEnv [f150Form, f150Form] (initModel noModelEnv freshPage).page =
      (initModel noModelEnv freshPage).page := by
  have h := (C9_missing_static_data noModelEnv freshPage).2.1
    ((C9_missing_static_data noModelEnv freshPage).1 rfl) rfl
  exact ⟨rfl, rfl, h.2.1, h.2.2.2.2.1, h.2.2.2.2.2.2 [f150Form, f150Form]⟩

/-- C10: when the lowercased, trimmed model name is a key of the frequency map
with score 0, the model entry (position 0) is 1, not 0, the same entry that
any name gets on which the read finds nothing; the lookup puts the default 1
in place of every falsy stored score, which is exactly the score 0; and the
model entry of the vector is never 0, whatever the map and the name. -/
theorem C10_falsy_score (r : ℚ → JSNum) (lower : String → String) (freqMap : FreqMap)
    (form : Form) (hz : freqMap.lookup (modelName lower form) = some 0) :
    (orderedInputs r lower freqMap form)[0]? = some (JSVal.num (JSNum.fin 1)) ∧
    (orderedInputs r lower freqMap form)[0]? ≠ some (JSVal.num (JSNum.fin 0)) ∧
    (∀ absent : String, readFreq freqMap absent = JSVal.undefined →
      modelFreq freqMap absent = modelFreq freqMap (modelName lower form)) ∧
    (∀ (m : FreqMap) (name : String) (v : ℚ), m.lookup name = some v →
      ((JSNum.fin v).truthy = false → modelFreq m name = JSVal.num (JSNum.fin 1)) ∧
      ((JSNum.fin v).truthy = false ↔ v = 0) ∧
      (modelFreq m name ≠ JSVal.num (JSNum.fin v) ↔ v = 0)) ∧
    (∀ (r2 : ℚ → JSNum) (lower2 : String → String) (m : FreqMap) (form2 : Form),
      (orderedInputs r2 lower2 m form2)[0]? ≠ some (JSVal.num (JSNum.fin 0))) := by
  have h0 : ∀ (r2 : ℚ → JSNum) (lower2 : String → String) (m : FreqMap) (form2 : Form),
      (orderedInputs r2 lower2 m form2)[0]? = some (modelFreq m (modelName lower2 form2)) := by
    intro r2 lower2 m form2
    rw [orderedInputs_eq]
    rfl
  have h1 : modelFreq freqMap (modelName lower form) = JSVal.num (JSNum.fin 1) := by
    rw [modelFreq_of_lookup_some freqMap _ 0 hz]
    simp
  have hnz : ∀ (r2 : ℚ → JSNum) (lower2 : String → String) (m : FreqMap) (form2 : Form),
      (orderedInputs r2 lower2 m form2)[0]? ≠ some (JSVal.num (JSNum.fin 0)) := by
    intro r2 lower2 m form2 h
    rw [h0] at h
    injection h with h
    exact modelFreq_ne_zero m _ h
  refine ⟨by rw [h0, h1], hnz r lower freqMap form, ?_, ?_, hnz⟩
  · intro absent ha
    rw [h1, modelFreq_of_undefined freqMap absent ha]
  · intro m name v hv
    rw [modelFreq_of_lookup_some m name v hv]
    by_cases hv0 : v = 0
    · simp [hv0, JSNum.truthy]
    · simp [hv0, JSNum.truthy]

/-- C10, on a concrete map that stores 0 for civic: the model entry is 1. -/
theorem C10_falsy_score_witness :
    List.lookup (modelName asciiLower (formOf "Civic" "3" "6" "1" "85000" "1" "1" "2015"))
      [("civic", (0 : ℚ))] = some 0 ∧
    (orderedInputs binary64 asciiLower [("civic", 0)]
      (formOf "Civic" "3" "6" "1" "85000" "1" "1" "2015"))[0]? =
      some (JSVal.num (JSNum.fin 1)) := by
  have hm : modelName asciiLower (formOf "Civic" "3" "6" "1" "85000" "1" "1" "2015") =
      "civic" := by decide
  have hl : List.lookup (modelName asciiLower
      (formOf "Civic" "3" "6" "1" "85000" "1" "1" "2015")) [("civic", (0 : ℚ))] = some 0 := by
    rw [hm]
    simp [List.lookup]
  exact ⟨hl, (C10_falsy_score binary64 asciiLower [("civic", 0)]
    (formOf "Civic" "3" "6" "1" "85000" "1" "1" "2015") hl).1⟩

end UsedCars
